import Mathlib

/-!
# Metrics reporting facade: tag propagation and reporter fan-out

A shallow embedding of `reporter.go`, `prometheus.go`, `statsd.go`, `errors.go` and
`interface.go`.

Modelling conventions.

* A Go `map[string]string` is an association list with pairwise distinct keys
  (`AList`).  `m[k] = v` is `AList.insert`, `m[k]` is `AList.lookup`, and a `range` loop is a
  left fold over the entries.  Go leaves the iteration order unspecified; every order is
  the entry order of some `AList`, so a statement quantified over all maps covers all
  orders.  Maps are references in Go: a callee that writes to a map argument changes the
  caller's map, so every operation that may write to a map argument returns the map as it
  is after the call.
* A map argument that the code writes to may be the nil map: it is an `Option Tags`, where
  `none` reads as the empty map and panics on assignment.
* `float64` payloads are carried as rationals; the embedded code only passes them on.
* A run-time panic (failed type assertion, label mismatch inside the series library) is an
  explicit outcome.
-/

namespace Metrics

/-- Go `map[string]string`. -/
abbrev Tags := AList (fun _ : String => String)

/-- Go `float64` payload, carried through unchanged by the embedded code. -/
abbrev Float64 := ℚ

/-- A non-nil Go `error`: its message and, as seen by the error-code collaborator, the
structured code it carries, if any. -/
structure ErrorValue where
  msg : String
  code : Option String
  deriving DecidableEq, Repr

/-- Go `error` interface value: `none` is `nil`. -/
abbrev GoError := Option ErrorValue

/-- `ErrMetricNotKnown` of `errors.go`. -/
def ErrMetricNotKnown : ErrorValue := ⟨"the provided metric does not exist", none⟩

/-- `ErrNotImplemented` of `errors.go`. -/
def ErrNotImplemented : ErrorValue := ⟨"method not implemented", none⟩

/-- Modelled from the spec: the error-code collaborator `errors.GetErrorCode` of the external
errors package ("given an error value, returns a structured code string or an unknown
sentinel"; the empty string for a nil error, as the timing tests expect).  The sentinel
`ErrUnknownCode` is a parameter. -/
def GetErrorCode (ErrUnknownCode : String) : GoError → String
  | none => ""
  | some e =>
    match e.code with
    | some c => c
    | none => ErrUnknownCode

/-- A dynamically typed value stored in the propagation context (`interface{}`). -/
inductive CtxValue where
  | int64 (n : Int)
  | str (s : String)
  | tags (m : Tags)
  | other (description : String)
  deriving DecidableEq

/-- Modelled from the spec: a non-nil propagation context, "a key/value bag" read through
`GetFromPropagateCtx` of the external context package. -/
structure Ctx where
  bag : AList (fun _ : String => CtxValue)

/-- Go `context.Context`: `none` is the nil context. -/
abbrev Context := Option Ctx

/-- Modelled from the spec: `gContext.GetFromPropagateCtx(ctx, key)`, the value stored under
`key`, or nil (`none`) when there is none. -/
def GetFromPropagateCtx (ctx : Context) (key : String) : Option CtxValue :=
  match ctx with
  | none => none
  | some c => c.bag.lookup key

/-- The three context keys `StartTimeKey`, `RouteKey` and `MetricTagsKey`; their declaration
is not part of the embedded files, so they are parameters. -/
structure CtxKeys where
  StartTimeKey : String
  RouteKey : String
  MetricTagsKey : String

/-- `tagsFromContext` of `reporter.go`. -/
def tagsFromContext (K : CtxKeys) (ctx : Context) : Tags :=
  match GetFromPropagateCtx ctx K.MetricTagsKey with
  | none => ∅
  | some (CtxValue.tags tags) => tags
  | some _ => ∅

/-- `getTags` of `reporter.go`: every entry of the context tags is written into `tags`. -/
def getTags (K : CtxKeys) (ctx : Context) (tags : Tags) : Tags :=
  (tagsFromContext K ctx).foldl (fun tags k v => tags.insert k v) tags

/-- What the caller observes of one method call on a reporter: either the call returns an
error value (nil or not), leaving the label map it was handed in the state `labels`, or it
panics. -/
inductive CallResult where
  | returned (labels : Tags) (err : GoError)
  | panicked

/-- The `Reporter` interface of `interface.go`: any value with the four methods. -/
structure Reporter where
  ReportCount : String → Tags → Float64 → CallResult
  ReportSummary : String → Tags → Float64 → CallResult
  ReportHistogram : String → Tags → Float64 → CallResult
  ReportGauge : String → Tags → Float64 → CallResult

/-- One `ReportSummary` call as received by a reporter. -/
structure SummaryCall where
  metric : String
  tags : Tags
  value : Float64
  deriving DecidableEq

/-- The effect of a fan-out loop: the calls delivered, in order (the i-th call is the one
received by the i-th reporter of the list), and whether the loop ended in a panic. -/
structure Run where
  calls : List SummaryCall
  panicked : Bool
  deriving DecidableEq

/-- The loop `for _, r := range reporters { r.ReportSummary(metric, tags, value) }`.  The
returned error is dropped; `tags` is one map shared by all iterations. -/
def reportSummaryLoop (metric : String) (value : Float64) : List Reporter → Tags → Run
  | [], _ => ⟨[], false⟩
  | r :: rs, tags =>
    match r.ReportSummary metric tags value with
    | CallResult.panicked => ⟨[⟨metric, tags, value⟩], true⟩
    | CallResult.returned tags' _ =>
      let rest := reportSummaryLoop metric value rs tags'
      ⟨⟨metric, tags, value⟩ :: rest.calls, rest.panicked⟩

/-- Modelled from the spec: the metric name `ResponseTime` (catalog entry `response_time`). -/
def ResponseTime : String := "response_time"

/-- Modelled from the spec: the metric name `ProcessDelay` (catalog entry `process_delay`). -/
def ProcessDelay : String := "process_delay"

/-- The reserved tags of `ReportTimingFromCtx`: the map literal of lines 24-29. -/
def timingReserved (route status typ code : String) : Tags :=
  (((((∅ : Tags).insert "route" route).insert "status" status).insert "type" typ).insert
    "code" code)

/-- The reserved tags of `ReportMessageProcessDelayFromCtx`: the map literal of lines 41-44. -/
def delayReserved (route typ : String) : Tags :=
  (((∅ : Tags).insert "route" route).insert "type" typ)

/-- `ReportTimingFromCtx` of `reporter.go`.  `Since t` is the clock reading
`time.Since(time.Unix(0, t)).Nanoseconds()`.  The two type assertions `startTime.(int64)` and
`route.(string)` panic on a missing or differently typed value. -/
def ReportTimingFromCtx (K : CtxKeys) (ErrUnknownCode : String) (Since : Int → Int)
    (ctx : Context) (reporters : List Reporter) (typ : String) (err : GoError) : Run :=
  match ctx with
  | none => ⟨[], false⟩
  | some _ =>
    let code := GetErrorCode ErrUnknownCode err
    let status := if err ≠ none then "failed" else "ok"
    if reporters.length > 0 then
      let startTime := GetFromPropagateCtx ctx K.StartTimeKey
      let route := GetFromPropagateCtx ctx K.RouteKey
      match startTime with
      | some (CtxValue.int64 startTime) =>
        let elapsed := Since startTime
        match route with
        | some (CtxValue.str route) =>
          let tags := getTags K ctx (timingReserved route status typ code)
          reportSummaryLoop ResponseTime (elapsed : ℚ) reporters tags
        | _ => ⟨[], true⟩
      | _ => ⟨[], true⟩
    else ⟨[], false⟩

/-- `ReportMessageProcessDelayFromCtx` of `reporter.go`. -/
def ReportMessageProcessDelayFromCtx (K : CtxKeys) (Since : Int → Int)
    (ctx : Context) (reporters : List Reporter) (typ : String) : Run :=
  if reporters.length > 0 then
    let startTime := GetFromPropagateCtx ctx K.StartTimeKey
    match startTime with
    | some (CtxValue.int64 startTime) =>
      let elapsed := Since startTime
      let route := GetFromPropagateCtx ctx K.RouteKey
      match route with
      | some (CtxValue.str route) =>
        let tags := getTags K ctx (delayReserved route typ)
        reportSummaryLoop ProcessDelay (elapsed : ℚ) reporters tags
      | _ => ⟨[], true⟩
    | _ => ⟨[], true⟩
  else ⟨[], false⟩

/-- A reporter that leaves the label map alone and returns `err` from every method, like the
generated mock used by the tests. -/
def mockReporter (err : GoError) : Reporter where
  ReportCount := fun _ labels _ => CallResult.returned labels err
  ReportSummary := fun _ labels _ => CallResult.returned labels err
  ReportHistogram := fun _ labels _ => CallResult.returned labels err
  ReportGauge := fun _ labels _ => CallResult.returned labels err

/-! ### The registry-backed reporter (`prometheus.go`) -/

/-- The option record of a series vector (`prometheus.SummaryOpts`, `HistogramOpts`,
`GaugeOpts`, `CounterOpts`): the fields the embedded code sets.  `Objectives` is only set
for summaries and `Buckets` only for histograms. -/
structure Opts where
  Namespace : String
  Subsystem : String
  Name : String
  Help : String
  ConstLabels : Tags
  Objectives : List (ℚ × ℚ)
  Buckets : List ℚ

/-- A series vector of the collector library (`*prometheus.CounterVec`, `GaugeVec`,
`SummaryVec`, `HistogramVec`): its options, its label-key schema (the variable label names
it was declared with) and the observations applied to it so far, each with the resolved
label set that selected the series. -/
structure MetricVec where
  opts : Opts
  labelNames : List String
  observed : List (Tags × Float64)

/-- The constructors `prometheus.NewSummaryVec`, `NewHistogramVec`, `NewGaugeVec` and
`NewCounterVec`: a vector with the given options and label names and no observation. -/
def NewVec (opts : Opts) (labelNames : List String) : MetricVec :=
  ⟨opts, labelNames, []⟩

/-- The label check of the collector library behind `vec.With(labels)`: the label map must
have as many entries as the vector has label names, and a value for each of them.  (The
library also rejects a value that is not valid UTF-8; label values here are Lean strings,
which always are.) -/
def MetricVec.accepts (v : MetricVec) (labels : Tags) : Bool :=
  labels.keys.length == v.labelNames.length && v.labelNames.all (fun l => labels.keys.contains l)

/-- The call chain `vec.With(labels).Observe(value)` (`Set`, `Add`): `With` panics (`none`)
when the label check fails ("in the underlying libraries this is a hard failure"), otherwise
the observation is applied to the series selected by `labels`. -/
def MetricVec.withObserve (v : MetricVec) (labels : Tags) (value : Float64) : Option MetricVec :=
  if v.accepts labels then some { v with observed := v.observed ++ [(labels, value)] } else none

/-- A collector handed to the process-wide registry: a series vector together with its
kind. -/
inductive Collector where
  | counter (v : MetricVec)
  | gauge (v : MetricVec)
  | summary (v : MetricVec)
  | histogram (v : MetricVec)

/-- A table from metric name to series vector (`map[string]*prometheus.XVec`). -/
abbrev Table := AList (fun _ : String => MetricVec)

/-- The struct `PrometheusReporter`. -/
structure PrometheusReporter where
  serverType : String
  game : String
  countReportersMap : Table
  summaryReportersMap : Table
  histogramReportersMap : Table
  gaugeReportersMap : Table
  additionalLabels : Tags

/-- A custom summary of the metric specification (`config.CustomMetricsSpec.Summaries`). -/
structure SummarySpec where
  Subsystem : String
  Name : String
  Help : String
  Objectives : List (ℚ × ℚ)
  Labels : List String

/-- A custom histogram of the metric specification. -/
structure HistogramSpec where
  Subsystem : String
  Name : String
  Help : String
  Buckets : List ℚ
  Labels : List String

/-- A custom gauge of the metric specification. -/
structure GaugeSpec where
  Subsystem : String
  Name : String
  Help : String
  Labels : List String

/-- A custom counter of the metric specification. -/
structure CounterSpec where
  Subsystem : String
  Name : String
  Help : String
  Labels : List String

/-- The custom metric specification `config.CustomMetricsSpec` (a non-nil pointer). -/
structure CustomMetricsSpec where
  Summaries : List SummarySpec
  Histograms : List HistogramSpec
  Gauges : List GaugeSpec
  Counters : List CounterSpec

/-- Modelled from the spec: the built-in metric names of the catalog, whose declarations are
not part of the embedded files. -/
def ConnectedClients : String := "connected_clients"

/-- Modelled from the spec: catalog entry `count_servers`. -/
def CountServers : String := "count_servers"

/-- Modelled from the spec: catalog entry `channel_capacity`. -/
def ChannelCapacity : String := "channel_capacity"

/-- Modelled from the spec: catalog entry `dropped_messages`. -/
def DroppedMessages : String := "dropped_messages"

/-- Modelled from the spec: catalog entry `goroutines`. -/
def Goroutines : String := "goroutines"

/-- Modelled from the spec: catalog entry `heap_size`. -/
def HeapSize : String := "heap_size"

/-- Modelled from the spec: catalog entry `heap_objects`. -/
def HeapObjects : String := "heap_objects"

/-- Modelled from the spec: catalog entry `worker_jobs_retry`. -/
def WorkerJobsRetry : String := "worker_jobs_retry"

/-- Modelled from the spec: catalog entry `worker_queue_size`. -/
def WorkerQueueSize : String := "worker_queue_size"

/-- Modelled from the spec: catalog entry `worker_jobs_total`. -/
def WorkerJobsTotal : String := "worker_jobs_total"

/-- Modelled from the spec: catalog entry `exceeded_rate_limiting`. -/
def ExceededRateLimiting : String := "exceeded_rate_limiting"

/-- The assignment `p.summaryReportersMap[name] = v`. -/
def PrometheusReporter.setSummary (p : PrometheusReporter) (name : String) (v : MetricVec) :
    PrometheusReporter :=
  { p with summaryReportersMap := p.summaryReportersMap.insert name v }

/-- The assignment `p.histogramReportersMap[name] = v`. -/
def PrometheusReporter.setHistogram (p : PrometheusReporter) (name : String) (v : MetricVec) :
    PrometheusReporter :=
  { p with histogramReportersMap := p.histogramReportersMap.insert name v }

/-- The assignment `p.gaugeReportersMap[name] = v`. -/
def PrometheusReporter.setGauge (p : PrometheusReporter) (name : String) (v : MetricVec) :
    PrometheusReporter :=
  { p with gaugeReportersMap := p.gaugeReportersMap.insert name v }

/-- The assignment `p.countReportersMap[name] = v`. -/
def PrometheusReporter.setCounter (p : PrometheusReporter) (name : String) (v : MetricVec) :
    PrometheusReporter :=
  { p with countReportersMap := p.countReportersMap.insert name v }

/-- `PrometheusReporter.registerCustomMetrics`.  `PREFIX` is the constant `config.PREFIX`.
`additionalLabelsKeys` is a slice filled to its capacity, so each
`append(additionalLabelsKeys, x.Labels...)` yields the keys followed by the labels without
touching the shared slice. -/
def PrometheusReporter.registerCustomMetrics (PREFIX : String) (p : PrometheusReporter)
    (constLabels : Tags) (additionalLabelsKeys : List String) (spec : CustomMetricsSpec) :
    PrometheusReporter :=
  let p := spec.Summaries.foldl (fun (p : PrometheusReporter) sm =>
    p.setSummary sm.Name
      (NewVec ⟨PREFIX, sm.Subsystem, sm.Name, sm.Help, constLabels, sm.Objectives, []⟩
        (additionalLabelsKeys ++ sm.Labels))) p
  let p := spec.Histograms.foldl (fun (p : PrometheusReporter) hg =>
    p.setHistogram hg.Name
      (NewVec ⟨PREFIX, hg.Subsystem, hg.Name, hg.Help, constLabels, [], hg.Buckets⟩
        (additionalLabelsKeys ++ hg.Labels))) p
  let p := spec.Gauges.foldl (fun (p : PrometheusReporter) gg =>
    p.setGauge gg.Name
      (NewVec ⟨PREFIX, gg.Subsystem, gg.Name, gg.Help, constLabels, [], []⟩
        (additionalLabelsKeys ++ gg.Labels))) p
  spec.Counters.foldl (fun (p : PrometheusReporter) cn =>
    p.setCounter cn.Name
      (NewVec ⟨PREFIX, cn.Subsystem, cn.Name, cn.Help, constLabels, [], []⟩
        (additionalLabelsKeys ++ cn.Labels))) p

/-- The `Objectives` literal of the two built-in summaries. -/
def handlerObjectives : List (ℚ × ℚ) := [(0.7, 0.02), (0.95, 0.005), (0.99, 0.001)]

/-- The `Buckets` literal of the built-in histogram. -/
def handlerBuckets : List ℚ := [1, 5, 10, 50, 100, 300, 500, 1000, 5000, 10000]

/-- `PrometheusReporter.registerMetrics`.  The result is the reporter after registration and
the collector list `toRegister` handed to `prometheus.MustRegister`. -/
def PrometheusReporter.registerMetrics (PREFIX : String) (p : PrometheusReporter)
    (constLabels additionalLabels : Tags) (spec : CustomMetricsSpec) :
    PrometheusReporter × List Collector :=
  let constLabels := constLabels.insert "game" p.game
  let constLabels := constLabels.insert "serverType" p.serverType
  let p : PrometheusReporter := { p with additionalLabels := additionalLabels }
  let additionalLabelsKeys : List String :=
    additionalLabels.foldl (fun keys key _ => keys ++ [key]) []
  let p := p.registerCustomMetrics PREFIX constLabels additionalLabelsKeys spec
  let p := p.setSummary ResponseTime
    (NewVec (Opts.mk PREFIX "handler" ResponseTime
      "the time to process a msg in nanoseconds" constLabels
      handlerObjectives [])
      (["route", "status", "type", "code"] ++ additionalLabelsKeys))
  let p := p.setHistogram ResponseTime
    (NewVec (Opts.mk PREFIX "handler" ResponseTime
      "the time to process a msg in nanoseconds" constLabels
      [] handlerBuckets)
      (["route", "status", "type", "code"] ++ additionalLabelsKeys))
  let p := p.setSummary ProcessDelay
    (NewVec (Opts.mk PREFIX "handler" ProcessDelay
      "the delay to start processing a msg in nanoseconds" constLabels
      handlerObjectives [])
      (["route", "type"] ++ additionalLabelsKeys))
  let p := p.setGauge ConnectedClients
    (NewVec (Opts.mk PREFIX "acceptor" ConnectedClients
      "the number of clients connected right now" constLabels [] [])
      (additionalLabelsKeys))
  let p := p.setGauge CountServers
    (NewVec (Opts.mk PREFIX "service_discovery" CountServers
      "the number of discovered servers by service discovery" constLabels [] [])
      (["type"] ++ additionalLabelsKeys))
  let p := p.setGauge ChannelCapacity
    (NewVec (Opts.mk PREFIX "channel" ChannelCapacity
      "the available capacity of the channel" constLabels [] [])
      (["channel"] ++ additionalLabelsKeys))
  let p := p.setGauge DroppedMessages
    (NewVec (Opts.mk PREFIX "rpc_server" DroppedMessages
      "the number of rpc server dropped messages (messages that are not handled)" constLabels [] [])
      (additionalLabelsKeys))
  let p := p.setGauge Goroutines
    (NewVec (Opts.mk PREFIX "sys" Goroutines
      "the current number of goroutines" constLabels [] [])
      (additionalLabelsKeys))
  let p := p.setGauge HeapSize
    (NewVec (Opts.mk PREFIX "sys" HeapSize
      "the current heap size" constLabels [] [])
      (additionalLabelsKeys))
  let p := p.setGauge HeapObjects
    (NewVec (Opts.mk PREFIX "sys" HeapObjects
      "the current number of allocated heap objects" constLabels [] [])
      (additionalLabelsKeys))
  let p := p.setGauge WorkerJobsRetry
    (NewVec (Opts.mk PREFIX "worker" WorkerJobsRetry
      "the current number of job retries" constLabels [] [])
      (additionalLabelsKeys))
  let p := p.setGauge WorkerQueueSize
    (NewVec (Opts.mk PREFIX "worker" WorkerQueueSize
      "the current queue size" constLabels [] [])
      (["queue"] ++ additionalLabelsKeys))
  let p := p.setGauge WorkerJobsTotal
    (NewVec (Opts.mk PREFIX "worker" WorkerJobsTotal
      "the total executed jobs" constLabels [] [])
      (["status"] ++ additionalLabelsKeys))
  let p := p.setCounter ExceededRateLimiting
    (NewVec (Opts.mk PREFIX "acceptor" ExceededRateLimiting
      "the number of blocked requests by exceeded rate limiting" constLabels [] [])
      additionalLabelsKeys)
  let toRegister : List Collector := []
  let toRegister := p.countReportersMap.foldl
    (fun toRegister _ c => toRegister ++ [Collector.counter c]) toRegister
  let toRegister := p.gaugeReportersMap.foldl
    (fun toRegister _ c => toRegister ++ [Collector.gauge c]) toRegister
  let toRegister := p.summaryReportersMap.foldl
    (fun toRegister _ c => toRegister ++ [Collector.summary c]) toRegister
  (p, toRegister)

/-- The reporter constructed in `GetPrometheusReporter` before registration: empty tables. -/
def newPrometheusReporter (serverType : String) : PrometheusReporter :=
  { serverType := serverType
    game := ""
    countReportersMap := ∅
    summaryReportersMap := ∅
    histogramReportersMap := ∅
    gaugeReportersMap := ∅
    additionalLabels := ∅ }

/-- Reading a possibly nil map: the nil map has no entry. -/
def readMap : Option Tags → Tags
  | none => ∅
  | some m => m

/-- One iteration of the loop of `ensureLabels`: `labels[key]` is read (a nil map has no
entry) and, when the key is missing, `labels[key] = defaultVal` is executed, which panics
(`none`) when `labels` is the nil map. -/
def ensureStep (labels : Option Tags) (key defaultVal : String) : Option (Option Tags) :=
  match (readMap labels).lookup key with
  | some _ => some labels
  | none =>
    match labels with
    | none => none
    | some m => some (some (m.insert key defaultVal))

/-- `PrometheusReporter.ensureLabels`.  The label map argument is a map or the nil map
(`none`); the result is the label map after the loop (it is written in place and returned),
or `none` when an assignment to the nil map panics. -/
def PrometheusReporter.ensureLabels (p : PrometheusReporter) (labels : Option Tags) :
    Option (Option Tags) :=
  p.additionalLabels.foldl (fun acc key defaultVal =>
    match acc with
    | none => none
    | some labels => ensureStep labels key defaultVal) (some labels)

/-- What the caller observes of a method call on a concrete reporter: the reporter and the
label map after the call and the returned error, or a panic. -/
inductive Outcome (σ : Type) where
  | returned (state : σ) (labels : Tags) (err : GoError)
  | panicked

/-- The interface view of an outcome. -/
def Outcome.toCallResult {σ : Type} : Outcome σ → CallResult
  | Outcome.returned _ labels err => CallResult.returned labels err
  | Outcome.panicked => CallResult.panicked

/-- What the caller observes of a reporting call on a `PrometheusReporter`: the reporter
and the label map (a map or nil) after the call and the returned error, or a panic. -/
inductive ReportOutcome where
  | returned (state : PrometheusReporter) (labels : Option Tags) (err : GoError)
  | panicked

/-- The interface view of a reporting outcome. -/
def ReportOutcome.toCallResult : ReportOutcome → CallResult
  | ReportOutcome.returned _ labels err => CallResult.returned (readMap labels) err
  | ReportOutcome.panicked => CallResult.panicked

/-- The series stored under `metric` in the summary table is replaced by `v`. -/
def PrometheusReporter.setObservedSummary (p : PrometheusReporter) (metric : String)
    (v : MetricVec) : PrometheusReporter :=
  { p with summaryReportersMap := p.summaryReportersMap.replace metric v }

/-- The series stored under `metric` in the histogram table is replaced by `v`. -/
def PrometheusReporter.setObservedHistogram (p : PrometheusReporter) (metric : String)
    (v : MetricVec) : PrometheusReporter :=
  { p with histogramReportersMap := p.histogramReportersMap.replace metric v }

/-- The series stored under `metric` in the counter table is replaced by `v`. -/
def PrometheusReporter.setObservedCounter (p : PrometheusReporter) (metric : String)
    (v : MetricVec) : PrometheusReporter :=
  { p with countReportersMap := p.countReportersMap.replace metric v }

/-- The series stored under `metric` in the gauge table is replaced by `v`. -/
def PrometheusReporter.setObservedGauge (p : PrometheusReporter) (metric : String)
    (v : MetricVec) : PrometheusReporter :=
  { p with gaugeReportersMap := p.gaugeReportersMap.replace metric v }

/-- `PrometheusReporter.ReportSummary`. -/
def PrometheusReporter.ReportSummary (p : PrometheusReporter) (metric : String)
    (labels : Option Tags) (value : Float64) : ReportOutcome :=
  match p.summaryReportersMap.lookup metric with
  | some sum =>
    match p.ensureLabels labels with
    | none => ReportOutcome.panicked
    | some labels =>
      match sum.withObserve (readMap labels) value with
      | some sum' =>
          ReportOutcome.returned (p.setObservedSummary metric sum') labels none
      | none => ReportOutcome.panicked
  | none => ReportOutcome.returned p labels (some ErrMetricNotKnown)

/-- `PrometheusReporter.ReportHistogram`. -/
def PrometheusReporter.ReportHistogram (p : PrometheusReporter) (metric : String)
    (labels : Option Tags) (value : Float64) : ReportOutcome :=
  match p.histogramReportersMap.lookup metric with
  | some hist =>
    match p.ensureLabels labels with
    | none => ReportOutcome.panicked
    | some labels =>
      match hist.withObserve (readMap labels) value with
      | some hist' =>
          ReportOutcome.returned (p.setObservedHistogram metric hist') labels none
      | none => ReportOutcome.panicked
  | none => ReportOutcome.returned p labels (some ErrMetricNotKnown)

/-- `PrometheusReporter.ReportCount`.  `Counter.Add` of the collector library panics on a
negative value. -/
def PrometheusReporter.ReportCount (p : PrometheusReporter) (metric : String)
    (labels : Option Tags) (count : Float64) : ReportOutcome :=
  match p.countReportersMap.lookup metric with
  | some cnt =>
    match p.ensureLabels labels with
    | none => ReportOutcome.panicked
    | some labels =>
      match cnt.withObserve (readMap labels) count with
      | some cnt' =>
          if count < 0 then ReportOutcome.panicked
          else
            ReportOutcome.returned (p.setObservedCounter metric cnt') labels none
      | none => ReportOutcome.panicked
  | none => ReportOutcome.returned p labels (some ErrMetricNotKnown)

/-- `PrometheusReporter.ReportGauge`. -/
def PrometheusReporter.ReportGauge (p : PrometheusReporter) (metric : String)
    (labels : Option Tags) (value : Float64) : ReportOutcome :=
  match p.gaugeReportersMap.lookup metric with
  | some g =>
    match p.ensureLabels labels with
    | none => ReportOutcome.panicked
    | some labels =>
      match g.withObserve (readMap labels) value with
      | some g' =>
          ReportOutcome.returned (p.setObservedGauge metric g') labels none
      | none => ReportOutcome.panicked
  | none => ReportOutcome.returned p labels (some ErrMetricNotKnown)

/-- A `PrometheusReporter` used through the `Reporter` interface; the interface hands it a
map that is not nil. -/
def PrometheusReporter.toReporter (p : PrometheusReporter) : Reporter where
  ReportCount := fun metric labels count =>
    (p.ReportCount metric (some labels) count).toCallResult
  ReportSummary := fun metric labels value =>
    (p.ReportSummary metric (some labels) value).toCallResult
  ReportHistogram := fun metric labels value =>
    (p.ReportHistogram metric (some labels) value).toCallResult
  ReportGauge := fun metric labels value =>
    (p.ReportGauge metric (some labels) value).toCallResult

/-! ### The push reporter (`statsd.go`) -/

/-- One operation of the `Client` interface of `interface.go`, with its arguments. -/
inductive ClientCall where
  | Count (name : String) (value : Int) (tags : List String) (rate : Float64)
  | Gauge (name : String) (value : Float64) (tags : List String) (rate : Float64)
  | TimeInMilliseconds (name : String) (value : Float64) (tags : List String) (rate : Float64)
  deriving DecidableEq

/-- A value of the `Client` interface: the operations invoked on it so far, and the error it
answers each operation with. -/
structure Client where
  invoked : List ClientCall
  answer : ClientCall → GoError

/-- Invoking one client operation: it is recorded and answered. -/
def Client.invoke (c : Client) (call : ClientCall) : Client × GoError :=
  ({ c with invoked := c.invoked ++ [call] }, c.answer call)

/-- The struct `StatsdReporter`.  `defaultTags` is a slice filled to its capacity (see
`buildDefaultTags`), so appending to it never writes to its backing array. -/
structure StatsdReporter where
  client : Client
  rate : Float64
  serverType : String
  defaultTags : List String

/-- `StatsdReporter.buildDefaultTags`. -/
def StatsdReporter.buildDefaultTags (s : StatsdReporter) (tagsMap : Tags) : StatsdReporter :=
  let defaultTags : List String := ["serverType:" ++ s.serverType]
  let defaultTags := tagsMap.foldl (fun defaultTags k v => defaultTags ++ [k ++ ":" ++ v])
    defaultTags
  { s with defaultTags := defaultTags }

/-- The loop `for k, v := range tagsMap { fullTags = append(fullTags, k + ":" + v) }`. -/
def appendTags (fullTags : List String) (tagsMap : Tags) : List String :=
  tagsMap.foldl (fun fullTags k v => fullTags ++ [k ++ ":" ++ v]) fullTags

/-- The conversion `int64(count)` of a `float64`: truncation toward zero; a value outside
the `int64` range gives the smallest `int64` (the result of the conversion instruction on
the platform the code was run on; Go leaves it to the implementation). -/
def toInt64 (count : Float64) : Int :=
  if -(2 : Int) ^ 63 ≤ Int.tdiv count.num count.den ∧ Int.tdiv count.num count.den < (2 : Int) ^ 63
  then Int.tdiv count.num count.den
  else -(2 : Int) ^ 63

/-- `StatsdReporter.ReportCount` (the error log line is not modelled). -/
def StatsdReporter.ReportCount (s : StatsdReporter) (metric : String) (tagsMap : Tags)
    (count : Float64) : Outcome StatsdReporter :=
  let fullTags := appendTags s.defaultTags tagsMap
  let r := s.client.invoke (ClientCall.Count metric (toInt64 count) fullTags s.rate)
  Outcome.returned { s with client := r.1 } tagsMap r.2

/-- `StatsdReporter.ReportGauge` (the error log line is not modelled). -/
def StatsdReporter.ReportGauge (s : StatsdReporter) (metric : String) (tagsMap : Tags)
    (value : Float64) : Outcome StatsdReporter :=
  let fullTags := appendTags s.defaultTags tagsMap
  let r := s.client.invoke (ClientCall.Gauge metric value fullTags s.rate)
  Outcome.returned { s with client := r.1 } tagsMap r.2

/-- `StatsdReporter.ReportSummary` (the error log line is not modelled). -/
def StatsdReporter.ReportSummary (s : StatsdReporter) (metric : String) (tagsMap : Tags)
    (value : Float64) : Outcome StatsdReporter :=
  let fullTags := appendTags s.defaultTags tagsMap
  let r := s.client.invoke (ClientCall.TimeInMilliseconds metric value fullTags s.rate)
  Outcome.returned { s with client := r.1 } tagsMap r.2

/-- `StatsdReporter.ReportHistogram`: returns `ErrNotImplemented` and does nothing else. -/
def StatsdReporter.ReportHistogram (s : StatsdReporter) (_metric : String) (tagsMap : Tags)
    (_value : Float64) : Outcome StatsdReporter :=
  Outcome.returned s tagsMap (some ErrNotImplemented)

/-- A `StatsdReporter` used through the `Reporter` interface. -/
def StatsdReporter.toReporter (s : StatsdReporter) : Reporter where
  ReportCount := fun metric labels count => (s.ReportCount metric labels count).toCallResult
  ReportSummary := fun metric labels value => (s.ReportSummary metric labels value).toCallResult
  ReportHistogram := fun metric labels value =>
    (s.ReportHistogram metric labels value).toCallResult
  ReportGauge := fun metric labels value => (s.ReportGauge metric labels value).toCallResult

/-- Modelled from the spec: `gContext.AddToPropagateCtx(ctx, key, val)` of the external
context package, as the tests use it: the context with `val` stored under `key`. -/
def AddToPropagateCtx (ctx : Ctx) (key : String) (val : CtxValue) : Ctx :=
  ⟨ctx.bag.insert key val⟩

/-- The empty context `context.Background()`. -/
def Background : Ctx := ⟨∅⟩

/-- Sample context keys for the concrete scenarios. -/
def sampleKeys : CtxKeys := ⟨"req-start-time", "req-route", "metrics-tags"⟩

/-- The context of the timing tests: start time `start`, route `route`, no ad-hoc tags. -/
def testCtx (start : Int) (route : String) : Ctx :=
  AddToPropagateCtx (AddToPropagateCtx Background sampleKeys.StartTimeKey (CtxValue.int64 start))
    sampleKeys.RouteKey (CtxValue.str route)

/-- The context of the `test-tags` tests: `testCtx` with `val` stored under the tag key. -/
def testCtxWith (start : Int) (route : String) (val : CtxValue) : Ctx :=
  AddToPropagateCtx (testCtx start route) sampleKeys.MetricTagsKey val

/-- Whether a collector is a histogram vector. -/
def Collector.isHistogram : Collector → Bool
  | Collector.histogram _ => true
  | _ => false

/-- The reporter `GetPrometheusReporter` builds for server type "game-server", prefix
"metrics", no constant label, the given additional labels and an empty custom
specification. -/
def sampleReporter (additionalLabels : Tags) : PrometheusReporter :=
  ((newPrometheusReporter "game-server").registerMetrics "metrics" ∅ additionalLabels
    ⟨[], [], [], []⟩).1

/-- Every series of a table has all of `keys` in its label-key schema. -/
def TableHas (keys : List String) (t : Table) : Prop :=
  ∀ name v, t.lookup name = some v → ∀ k ∈ keys, k ∈ v.labelNames

/-- Every series of the four tables of a reporter has all of `keys` in its label-key
schema. -/
def AllSeriesHave (keys : List String) (p : PrometheusReporter) : Prop :=
  TableHas keys p.countReportersMap ∧ TableHas keys p.gaugeReportersMap ∧
    TableHas keys p.summaryReportersMap ∧ TableHas keys p.histogramReportersMap

/-- A reporter with empty tables holding the additional-label defaults `D`. -/
def labelsOnlyReporter (D : Tags) : PrometheusReporter :=
  { newPrometheusReporter "game-server" with additionalLabels := D }

/-! ### Construction (`NewStatsdReporter`, `GetPrometheusReporter`) -/

/-- The fields of the configuration record `config.Metrics` that the embedded code reads.
The constant-tag map may be the nil map (`none`): reading a nil map is reading the empty
map, writing to it panics. -/
structure ConfigMetrics where
  GoTechBookFrameworkMetricsConstTags : Option Tags
  GoTechBookFrameworkMetricsPrometheusAdditionalTags : Tags
  GoTechBookFrameworkMetricsPrometheusPort : Int
  GoTechBookFrameworkMetricsStatsdRate : Float64
  GoTechBookFrameworkMetricsStatsdHost : String
  GoTechBookFrameworkMetricsStatsdPrefix : String

/-- `NewStatsdReporter`.  `statsdNew host prefix` stands for `statsd.New(host)` followed by
`c.Namespace = prefix`: the client of the push library, or its error. -/
def NewStatsdReporter (statsdNew : String → String → Except ErrorValue Client)
    (metrics : ConfigMetrics) (serverType : String) (clientOrNil : List Client) :
    Except ErrorValue StatsdReporter :=
  match clientOrNil with
  | client :: _ =>
    Except.ok ((StatsdReporter.mk client metrics.GoTechBookFrameworkMetricsStatsdRate
      serverType []).buildDefaultTags (readMap metrics.GoTechBookFrameworkMetricsConstTags))
  | [] =>
    match statsdNew metrics.GoTechBookFrameworkMetricsStatsdHost
        metrics.GoTechBookFrameworkMetricsStatsdPrefix with
    | Except.error err => Except.error err
    | Except.ok c =>
      Except.ok ((StatsdReporter.mk c metrics.GoTechBookFrameworkMetricsStatsdRate
        serverType []).buildDefaultTags (readMap metrics.GoTechBookFrameworkMetricsConstTags))

/-- The formatting `fmt.Sprintf("%s:%s", k, v)` of one map entry. -/
def formatTag (e : Sigma (fun _ : String => String)) : String := e.1 ++ ":" ++ e.2

/-- A client that has not been used yet and answers every operation with `err`. -/
def freshClient (err : GoError) : Client := ⟨[], fun _ => err⟩

/-- A sample configuration: constant tag `env ↦ prod`, no additional label. -/
def sampleMetrics : ConfigMetrics :=
  { GoTechBookFrameworkMetricsConstTags := some ((∅ : Tags).insert "env" "prod")
    GoTechBookFrameworkMetricsPrometheusAdditionalTags := ∅
    GoTechBookFrameworkMetricsPrometheusPort := 9090
    GoTechBookFrameworkMetricsStatsdRate := 1
    GoTechBookFrameworkMetricsStatsdHost := "localhost:9125"
    GoTechBookFrameworkMetricsStatsdPrefix := "metrics." }

/-- The process-wide state behind `GetPrometheusReporter`: the one-shot guard `once`, the
package variable `prometheusReporter` (nil at process start), the collector lists whose
`prometheus.MustRegister` call completed, the patterns registered with `http.Handle`, and the
ports of the listener goroutines started so far. -/
structure Process where
  onceDone : Bool
  prometheusReporter : Option PrometheusReporter
  registered : List (List Collector)
  handlers : List String
  listeners : List Int

/-- A process at its start. -/
def Process.start : Process := ⟨false, none, [], [], []⟩

/-- What the caller observes of one `GetPrometheusReporter` call: the returned pair, or a
panic. -/
inductive GetResult where
  | returned (reporter : Option PrometheusReporter) (err : GoError)
  | panicked

/-- Whether a call ended in a panic. -/
def GetResult.isPanicked : GetResult → Bool
  | GetResult.panicked => true
  | GetResult.returned _ _ => false

/-- `GetPrometheusReporter`.  `once.Do(f)` runs `f` when the guard is not set and sets the
guard when `f` ends, also when it ends in a panic.  Inside `f`: the package variable is
assigned first; `registerMetrics` panics on a nil constant-tag map (`constLabels["game"] =`,
line 103) and `registerCustomMetrics` on a nil specification (`spec.Summaries`, line 50);
`prometheus.MustRegister` panics when the registry rejects the collectors
(`registryAccepts`, "fails fatally if two series collide on name"); `http.Handle` panics
when the pattern is registered already; then the listener goroutine is started. -/
def GetPrometheusReporter (PREFIX : String) (registryAccepts : List Collector → Bool)
    (serverType : String) (metrics : ConfigMetrics) (spec : Option CustomMetricsSpec)
    (st : Process) : Process × GetResult :=
  if st.onceDone then (st, GetResult.returned st.prometheusReporter none)
  else
    let p := newPrometheusReporter serverType
    let additionalLabels := metrics.GoTechBookFrameworkMetricsPrometheusAdditionalTags
    match metrics.GoTechBookFrameworkMetricsConstTags with
    | none =>
      (Process.mk true (some p) st.registered st.handlers st.listeners, GetResult.panicked)
    | some constLabels =>
      match spec with
      | none =>
        (Process.mk true (some { p with additionalLabels := additionalLabels }) st.registered
          st.handlers st.listeners, GetResult.panicked)
      | some spec =>
        let r := p.registerMetrics PREFIX constLabels additionalLabels spec
        if registryAccepts r.2 then
          if "/metrics" ∈ st.handlers then
            (Process.mk true (some r.1) (st.registered ++ [r.2]) st.handlers st.listeners,
              GetResult.panicked)
          else
            (Process.mk true (some r.1) (st.registered ++ [r.2]) (st.handlers ++ ["/metrics"])
              (st.listeners ++ [metrics.GoTechBookFrameworkMetricsPrometheusPort]),
              GetResult.returned (some r.1) none)
        else
          (Process.mk true (some r.1) st.registered st.handlers st.listeners,
            GetResult.panicked)

/-- The arguments of one `GetPrometheusReporter` call; the specification pointer may be
nil (`none`). -/
structure GetArgs where
  serverType : String
  metrics : ConfigMetrics
  spec : Option CustomMetricsSpec

/-- A sequence of `GetPrometheusReporter` calls in one process: the state after the last
call and the outcome of every call, in order.  The sequence goes on after a panic when the
caller recovers from it. -/
def runCalls (PREFIX : String) (registryAccepts : List Collector → Bool) :
    List GetArgs → Process → Process × List GetResult
  | [], st => (st, [])
  | a :: rest, st =>
    let r := GetPrometheusReporter PREFIX registryAccepts a.serverType a.metrics a.spec st
    let r' := runCalls PREFIX registryAccepts rest r.1
    (r'.1, r.2 :: r'.2)

/-- The reporter `NewStatsdReporter` builds from `sampleMetrics`, server type "game-server"
and a fresh client. -/
def sampleStatsd : StatsdReporter :=
  (StatsdReporter.mk (freshClient none) sampleMetrics.GoTechBookFrameworkMetricsStatsdRate
    "game-server" []).buildDefaultTags (readMap sampleMetrics.GoTechBookFrameworkMetricsConstTags)

/-! ## Theorems -/

/-- Writing the entries of a duplicate-free entry list into a map: afterwards a key maps to
the value the list gives it, and otherwise to what the map held before. -/
theorem lookup_foldl_insert (k : String) :
    ∀ (l : List (Sigma (fun _ : String => String))), l.NodupKeys → ∀ (t : Tags),
      (l.foldl (fun (d : Tags) s => d.insert s.1 s.2) t).lookup k =
        match List.dlookup k l with
        | some v => some v
        | none => t.lookup k := by
  intro l
  induction l with
  | nil => intro _ t; simp
  | cons hd tl ih =>
    intro hnd t
    obtain ⟨a, b⟩ := hd
    rw [List.nodupKeys_cons] at hnd
    obtain ⟨hnot, htl⟩ := hnd
    simp only [List.foldl_cons]
    rw [ih htl]
    by_cases hka : k = a
    · subst hka
      have hnone : List.dlookup k tl = none := List.dlookup_eq_none.mpr hnot
      simp [hnone, List.dlookup_cons_eq, AList.lookup_insert]
    · have h1 : List.dlookup k (⟨a, b⟩ :: tl) = List.dlookup k tl :=
        List.dlookup_cons_ne _ _ (fun h => hka h)
      rw [h1, AList.lookup_insert_ne hka]

/-- The map built by `getTags`: a key of the context tags carries the context value, every
other key keeps the value of the argument map. -/
theorem getTags_lookup (K : CtxKeys) (ctx : Context) (tags : Tags) (k : String) :
    (getTags K ctx tags).lookup k =
      match (tagsFromContext K ctx).lookup k with
      | some v => some v
      | none => tags.lookup k := by
  unfold getTags AList.foldl
  exact lookup_foldl_insert k _ (tagsFromContext K ctx).nodupKeys tags

/-- The context tags are the ad-hoc tag map when the context stores one. -/
theorem tagsFromContext_of_tags (K : CtxKeys) (c : Ctx) (m : Tags)
    (hm : c.bag.lookup K.MetricTagsKey = some (CtxValue.tags m)) :
    tagsFromContext K (some c) = m := by
  simp [tagsFromContext, GetFromPropagateCtx, hm]

/-- The context tags are empty when the context stores no string-to-string map. -/
theorem tagsFromContext_of_not_tags (K : CtxKeys) (c : Ctx)
    (hm : ∀ m : Tags, c.bag.lookup K.MetricTagsKey ≠ some (CtxValue.tags m)) :
    tagsFromContext K (some c) = ∅ := by
  cases h : c.bag.lookup K.MetricTagsKey with
  | none => simp [tagsFromContext, GetFromPropagateCtx, h]
  | some val =>
    cases val with
    | tags m => exact absurd h (hm m)
    | int64 n => simp [tagsFromContext, GetFromPropagateCtx, h]
    | str s => simp [tagsFromContext, GetFromPropagateCtx, h]
    | other d => simp [tagsFromContext, GetFromPropagateCtx, h]

/-- With empty context tags `getTags` returns its argument. -/
theorem getTags_of_empty (K : CtxKeys) (ctx : Context) (tags : Tags)
    (h : tagsFromContext K ctx = ∅) : getTags K ctx tags = tags := by
  unfold getTags
  rw [h]
  rfl

/-- The four entries of the reserved timing tags. -/
theorem timingReserved_lookup (route status typ code : String) :
    (timingReserved route status typ code).lookup "route" = some route ∧
    (timingReserved route status typ code).lookup "status" = some status ∧
    (timingReserved route status typ code).lookup "type" = some typ ∧
    (timingReserved route status typ code).lookup "code" = some code := by
  refine ⟨?_, ?_, ?_, ?_⟩
  · rw [timingReserved, AList.lookup_insert_ne (by decide), AList.lookup_insert_ne (by decide),
      AList.lookup_insert_ne (by decide), AList.lookup_insert]
  · rw [timingReserved, AList.lookup_insert_ne (by decide), AList.lookup_insert_ne (by decide),
      AList.lookup_insert]
  · rw [timingReserved, AList.lookup_insert_ne (by decide), AList.lookup_insert]
  · rw [timingReserved, AList.lookup_insert]

/-- The reserved timing tags have the four reserved keys and no other. -/
theorem timingReserved_mem (route status typ code k : String) :
    k ∈ timingReserved route status typ code ↔
      k = "route" ∨ k = "status" ∨ k = "type" ∨ k = "code" := by
  simp only [timingReserved, AList.mem_insert, AList.not_mem_empty, or_false]
  tauto

/-- The reserved delay tags have the two reserved keys and no other. -/
theorem delayReserved_mem (route typ k : String) :
    k ∈ delayReserved route typ ↔ k = "route" ∨ k = "type" := by
  simp only [delayReserved, AList.mem_insert, AList.not_mem_empty, or_false]
  tauto

/-- With a start time and a route in the context, `ReportTimingFromCtx` is the fan-out loop
run on the merged tag map. -/
theorem ReportTimingFromCtx_eq_loop (K : CtxKeys) (U : String) (Since : Int → Int) (c : Ctx)
    (rs : List Reporter) (typ : String) (err : GoError) (t : Int) (route : String)
    (hstart : c.bag.lookup K.StartTimeKey = some (CtxValue.int64 t))
    (hroute : c.bag.lookup K.RouteKey = some (CtxValue.str route)) :
    ReportTimingFromCtx K U Since (some c) rs typ err =
      reportSummaryLoop ResponseTime ((Since t : Int) : ℚ) rs
        (getTags K (some c)
          (timingReserved route (if err ≠ none then "failed" else "ok") typ
            (GetErrorCode U err))) := by
  cases rs with
  | nil => simp [ReportTimingFromCtx, reportSummaryLoop]
  | cons r rest =>
    simp [ReportTimingFromCtx, GetFromPropagateCtx, hstart, hroute]

/-- With a start time and a route in the context, `ReportMessageProcessDelayFromCtx` is the
fan-out loop run on the merged tag map. -/
theorem ReportMessageProcessDelayFromCtx_eq_loop (K : CtxKeys) (Since : Int → Int) (c : Ctx)
    (rs : List Reporter) (typ : String) (t : Int) (route : String)
    (hstart : c.bag.lookup K.StartTimeKey = some (CtxValue.int64 t))
    (hroute : c.bag.lookup K.RouteKey = some (CtxValue.str route)) :
    ReportMessageProcessDelayFromCtx K Since (some c) rs typ =
      reportSummaryLoop ProcessDelay ((Since t : Int) : ℚ) rs
        (getTags K (some c) (delayReserved route typ)) := by
  cases rs with
  | nil => simp [ReportMessageProcessDelayFromCtx, reportSummaryLoop]
  | cons r rest =>
    simp [ReportMessageProcessDelayFromCtx, GetFromPropagateCtx, hstart, hroute]

/-- A non-empty fan-out delivers its first call with the tag map the loop starts from. -/
theorem reportSummaryLoop_head (metric : String) (value : Float64) (rs : List Reporter)
    (tags : Tags) (hrs : rs ≠ []) :
    (reportSummaryLoop metric value rs tags).calls.head? = some ⟨metric, tags, value⟩ := by
  cases rs with
  | nil => exact absurd rfl hrs
  | cons r rest =>
    unfold reportSummaryLoop
    cases r.ReportSummary metric tags value <;> rfl

/-- C1 (as stated, refuted): the context route is "R" and the ad-hoc tag map holds
`route ↦ evil`; the tag map delivered to the reporter maps `route` to "evil", not to the
route of the context. -/
theorem reserved_route_overwritten_by_context_tag :
    (ReportTimingFromCtx sampleKeys "UNKNOWN" (fun t => 200 - t)
      (some (testCtxWith 0 "R" (CtxValue.tags ((∅ : Tags).insert "route" "evil"))))
      [mockReporter none] "T" none).calls.map (fun call => call.tags.lookup "route")
      = [some "evil"] ∧
    (ReportTimingFromCtx sampleKeys "UNKNOWN" (fun t => 200 - t)
      (some (testCtxWith 0 "R" (CtxValue.tags ((∅ : Tags).insert "route" "evil"))))
      [mockReporter none] "T" none).calls.map (fun call => call.tags.lookup "route")
      ≠ [some "R"] := by
  constructor <;> decide

/-- C1 (amended): for a context carrying a start time, a route and an ad-hoc tag map `m`,
`ReportTimingFromCtx` runs the fan-out on a tag map in which each of the four reserved keys
route, status, type and code carries the value `m` gives it when `m` has an entry under that
key, and otherwise the value derived from the context route, the error and the type
argument. -/
theorem timing_reserved_key_is_context_tag_or_derived (K : CtxKeys) (U : String)
    (Since : Int → Int) (c : Ctx) (rs : List Reporter) (typ : String) (err : GoError)
    (t : Int) (route : String) (m : Tags)
    (hstart : c.bag.lookup K.StartTimeKey = some (CtxValue.int64 t))
    (hroute : c.bag.lookup K.RouteKey = some (CtxValue.str route))
    (hm : c.bag.lookup K.MetricTagsKey = some (CtxValue.tags m)) :
    ∃ tags : Tags,
      ReportTimingFromCtx K U Since (some c) rs typ err =
        reportSummaryLoop ResponseTime ((Since t : Int) : ℚ) rs tags ∧
      tags.lookup "route" = some ((m.lookup "route").getD route) ∧
      tags.lookup "status" =
        some ((m.lookup "status").getD (if err ≠ none then "failed" else "ok")) ∧
      tags.lookup "type" = some ((m.lookup "type").getD typ) ∧
      tags.lookup "code" = some ((m.lookup "code").getD (GetErrorCode U err)) := by
  refine ⟨_, ReportTimingFromCtx_eq_loop K U Since c rs typ err t route hstart hroute, ?_⟩
  have hl := timingReserved_lookup route (if err ≠ none then "failed" else "ok") typ
    (GetErrorCode U err)
  obtain ⟨h1, h2, h3, h4⟩ := hl
  simp only [getTags_lookup, tagsFromContext_of_tags K c m hm, h1, h2, h3, h4]
  refine ⟨?_, ?_, ?_, ?_⟩
  · cases m.lookup "route" <;> rfl
  · cases m.lookup "status" <;> rfl
  · cases m.lookup "type" <;> rfl
  · cases m.lookup "code" <;> rfl

/-- C1 witness: the amended statement at the colliding context of the counterexample. -/
theorem timing_reserved_key_is_context_tag_or_derived_witness :
    ∃ tags : Tags,
      ReportTimingFromCtx sampleKeys "UNKNOWN" (fun t => 200 - t)
        (some (testCtxWith 0 "R" (CtxValue.tags ((∅ : Tags).insert "route" "evil"))))
        [mockReporter none] "T" none =
        reportSummaryLoop ResponseTime (((fun t => 200 - t) (0 : Int) : Int) : ℚ)
          [mockReporter none] tags ∧
      tags.lookup "route" =
        some ((((∅ : Tags).insert "route" "evil").lookup "route").getD "R") ∧
      tags.lookup "status" =
        some ((((∅ : Tags).insert "route" "evil").lookup "status").getD
          (if (none : GoError) ≠ none then "failed" else "ok")) ∧
      tags.lookup "type" =
        some ((((∅ : Tags).insert "route" "evil").lookup "type").getD "T") ∧
      tags.lookup "code" =
        some ((((∅ : Tags).insert "route" "evil").lookup "code").getD
          (GetErrorCode "UNKNOWN" none)) :=
  timing_reserved_key_is_context_tag_or_derived sampleKeys "UNKNOWN" (fun t => 200 - t)
    (testCtxWith 0 "R" (CtxValue.tags ((∅ : Tags).insert "route" "evil")))
    [mockReporter none] "T" none 0 "R" ((∅ : Tags).insert "route" "evil")
    (by decide) (by decide) rfl

/-- Merging context tags whose keys avoid the keys of `reserved`: the entries of the result
are exactly the entries of `reserved` and the entries of the context tags. -/
theorem getTags_entries_of_disjoint (K : CtxKeys) (c : Ctx) (m reserved : Tags)
    (hm : c.bag.lookup K.MetricTagsKey = some (CtxValue.tags m))
    (hdisj : ∀ k, k ∈ m → k ∉ reserved) (k v : String) :
    (getTags K (some c) reserved).lookup k = some v ↔
      (reserved.lookup k = some v ∨ m.lookup k = some v) := by
  rw [getTags_lookup, tagsFromContext_of_tags K c m hm]
  cases hk : m.lookup k with
  | none => simp
  | some w =>
    have hmem : k ∈ m := AList.lookup_isSome.mp (by simp [hk])
    have hnone : reserved.lookup k = none := AList.lookup_eq_none.mpr (hdisj k hmem)
    simp [hnone]

/-- A fan-out over reporters that leave the label map as they received it delivers one call
per reporter, in order, each with the tag map the loop started from, and does not panic. -/
theorem reportSummaryLoop_calls_of_untouched (metric : String) (value : Float64)
    (rs : List Reporter) (tags : Tags)
    (h : ∀ r ∈ rs, ∀ l, ∃ e, r.ReportSummary metric l value = CallResult.returned l e) :
    reportSummaryLoop metric value rs tags =
      ⟨rs.map (fun _ => ⟨metric, tags, value⟩), false⟩ := by
  induction rs with
  | nil => rfl
  | cons r rest ih =>
    obtain ⟨e, he⟩ := h r (List.mem_cons_self r rest) tags
    have hrest := ih (fun r' hr' => h r' (List.mem_cons_of_mem r hr'))
    simp [reportSummaryLoop, he, hrest]

/-- The entries of the reserved timing tags, by content. -/
theorem timingReserved_entry (route status typ code k v : String) :
    (timingReserved route status typ code).lookup k = some v ↔
      ((k = "route" ∧ v = route) ∨ (k = "status" ∧ v = status) ∨ (k = "type" ∧ v = typ) ∨
        (k = "code" ∧ v = code)) := by
  unfold timingReserved
  by_cases h1 : k = "code"
  · subst h1
    rw [AList.lookup_insert]
    simp [eq_comm]
  · rw [AList.lookup_insert_ne h1]
    by_cases h2 : k = "type"
    · subst h2
      rw [AList.lookup_insert]
      simp [eq_comm]
    · rw [AList.lookup_insert_ne h2]
      by_cases h3 : k = "status"
      · subst h3
        rw [AList.lookup_insert]
        simp [eq_comm]
      · rw [AList.lookup_insert_ne h3]
        by_cases h4 : k = "route"
        · subst h4
          rw [AList.lookup_insert]
          simp [eq_comm]
        · rw [AList.lookup_insert_ne h4, AList.lookup_empty]
          simp [h1, h2, h3, h4]

/-- The entries of the reserved delay tags, by content. -/
theorem delayReserved_entry (route typ k v : String) :
    (delayReserved route typ).lookup k = some v ↔
      ((k = "route" ∧ v = route) ∨ (k = "type" ∧ v = typ)) := by
  unfold delayReserved
  by_cases h1 : k = "type"
  · subst h1
    rw [AList.lookup_insert]
    simp [eq_comm]
  · rw [AList.lookup_insert_ne h1]
    by_cases h2 : k = "route"
    · subst h2
      rw [AList.lookup_insert]
      simp [eq_comm]
    · rw [AList.lookup_insert_ne h2, AList.lookup_empty]
      simp [h1, h2]

/-- The tag map both timing functions hand to their reporter loop, for a context carrying a
start time and a route: when the context stores a string-to-string map `m` whose keys avoid
the reserved keys, its entries are exactly the reserved entries and the entries of `m`; when
the stored value is absent or of any other type, its entries are exactly the reserved
entries.  The first reporter of the list receives this map; what the following reporters
receive depends on what the reporters before them wrote into it. -/
theorem loop_tags_are_reserved_with_context_tags (K : CtxKeys) (U : String)
    (Since : Int → Int) (c : Ctx) (rs : List Reporter) (typ : String) (err : GoError)
    (t : Int) (route : String)
    (hstart : c.bag.lookup K.StartTimeKey = some (CtxValue.int64 t))
    (hroute : c.bag.lookup K.RouteKey = some (CtxValue.str route)) :
    (∃ tags : Tags,
      ReportTimingFromCtx K U Since (some c) rs typ err =
        reportSummaryLoop ResponseTime ((Since t : Int) : ℚ) rs tags ∧
      (∀ m : Tags, c.bag.lookup K.MetricTagsKey = some (CtxValue.tags m) →
        "route" ∉ m → "status" ∉ m → "type" ∉ m → "code" ∉ m →
        ∀ k v, tags.lookup k = some v ↔
          (((k = "route" ∧ v = route) ∨
            (k = "status" ∧ v = (if err ≠ none then "failed" else "ok")) ∨
            (k = "type" ∧ v = typ) ∨ (k = "code" ∧ v = GetErrorCode U err)) ∨
           m.lookup k = some v)) ∧
      ((∀ m : Tags, c.bag.lookup K.MetricTagsKey ≠ some (CtxValue.tags m)) →
        ∀ k v, tags.lookup k = some v ↔
          ((k = "route" ∧ v = route) ∨
            (k = "status" ∧ v = (if err ≠ none then "failed" else "ok")) ∨
            (k = "type" ∧ v = typ) ∨ (k = "code" ∧ v = GetErrorCode U err)))) ∧
    (∃ tags : Tags,
      ReportMessageProcessDelayFromCtx K Since (some c) rs typ =
        reportSummaryLoop ProcessDelay ((Since t : Int) : ℚ) rs tags ∧
      (∀ m : Tags, c.bag.lookup K.MetricTagsKey = some (CtxValue.tags m) →
        "route" ∉ m → "type" ∉ m →
        ∀ k v, tags.lookup k = some v ↔
          (((k = "route" ∧ v = route) ∨ (k = "type" ∧ v = typ)) ∨ m.lookup k = some v)) ∧
      ((∀ m : Tags, c.bag.lookup K.MetricTagsKey ≠ some (CtxValue.tags m)) →
        ∀ k v, tags.lookup k = some v ↔
          ((k = "route" ∧ v = route) ∨ (k = "type" ∧ v = typ)))) := by
  have hT := ReportTimingFromCtx_eq_loop K U Since c rs typ err t route hstart hroute
  have hD := ReportMessageProcessDelayFromCtx_eq_loop K Since c rs typ t route hstart hroute
  constructor
  · refine ⟨_, hT, ?_, ?_⟩
    · intro m hm h1 h2 h3 h4 k v
      rw [← timingReserved_entry]
      apply getTags_entries_of_disjoint K c m _ hm
      intro k' hk' hres
      rw [timingReserved_mem] at hres
      rcases hres with h | h | h | h <;> subst h
      · exact h1 hk'
      · exact h2 hk'
      · exact h3 hk'
      · exact h4 hk'
    · intro hm k v
      rw [getTags_of_empty K (some c) _ (tagsFromContext_of_not_tags K c hm),
        timingReserved_entry]
  · refine ⟨_, hD, ?_, ?_⟩
    · intro m hm h1 h2 k v
      rw [← delayReserved_entry]
      apply getTags_entries_of_disjoint K c m _ hm
      intro k' hk' hres
      rw [delayReserved_mem] at hres
      rcases hres with h | h <;> subst h
      · exact h1 hk'
      · exact h2 hk'
    · intro hm k v
      rw [getTags_of_empty K (some c) _ (tagsFromContext_of_not_tags K c hm),
        delayReserved_entry]

/-- C3 (evaluation at the failing input): the context carries start time, route "R" and no
ad-hoc tags, so the tag map of `ReportMessageProcessDelayFromCtx` is the reserved map
`route ↦ R, type ↦ T`.  The first reporter, registry-backed with the additional label
`region ↦ us`, receives exactly that map; the second reporter receives a map with three
entries, the third being `region ↦ us`. -/
theorem delay_fanout_second_reporter_gets_unreserved_label :
    (ReportMessageProcessDelayFromCtx sampleKeys (fun t => 200 - t) (some (testCtx 0 "R"))
      [(sampleReporter ((∅ : Tags).insert "region" "us")).toReporter, mockReporter none]
      "T").calls.map (fun call => (call.metric, call.tags.lookup "route",
        call.tags.lookup "type", call.tags.lookup "region", call.tags.keys.length))
      = [("process_delay", some "R", some "T", none, 2),
         ("process_delay", some "R", some "T", some "us", 3)] := by
  decide

/-- C4 (as stated, refuted): the error is non-nil, yet the ad-hoc tag map holds
`status ↦ ok` and the tag map delivered to the reporter has status "ok". -/
theorem status_ok_reported_for_failed_call :
    (some (ErrorValue.mk "error" none) : GoError) ≠ none ∧
    (ReportTimingFromCtx sampleKeys "UNKNOWN" (fun t => 200 - t)
      (some (testCtxWith 0 "R" (CtxValue.tags ((∅ : Tags).insert "status" "ok"))))
      [mockReporter none] "T" (some (ErrorValue.mk "error" none))).calls.map
        (fun call => call.tags.lookup "status") = [some "ok"] := by
  constructor <;> decide

/-- C4 (amended): for a non-nil context with start time and route whose ad-hoc tag map, if
any, has no entry under status or code, and every non-empty reporter list, the first call
delivered is a `ReportSummary` of `ResponseTime` whose tags have status "ok" exactly when
the error is nil and "failed" otherwise, and code equal to the error-code collaborator's
result: the empty string for a nil error, the structured code of an error that carries one,
the unknown-code sentinel for a non-nil error that carries none. -/
theorem timing_status_and_code_without_colliding_tags (K : CtxKeys) (U : String)
    (Since : Int → Int) (c : Ctx) (rs : List Reporter) (typ : String) (err : GoError)
    (t : Int) (route : String)
    (hstart : c.bag.lookup K.StartTimeKey = some (CtxValue.int64 t))
    (hroute : c.bag.lookup K.RouteKey = some (CtxValue.str route))
    (hrs : rs ≠ [])
    (hfree : ∀ m : Tags, c.bag.lookup K.MetricTagsKey = some (CtxValue.tags m) →
      "status" ∉ m ∧ "code" ∉ m) :
    ∃ tags : Tags,
      ReportTimingFromCtx K U Since (some c) rs typ err =
        reportSummaryLoop ResponseTime ((Since t : Int) : ℚ) rs tags ∧
      (ReportTimingFromCtx K U Since (some c) rs typ err).calls.head? =
        some ⟨ResponseTime, tags, ((Since t : Int) : ℚ)⟩ ∧
      (tags.lookup "status" = some "ok" ↔ err = none) ∧
      (err ≠ none → tags.lookup "status" = some "failed") ∧
      tags.lookup "code" = some (GetErrorCode U err) ∧
      (err = none → tags.lookup "code" = some "") ∧
      (∀ e code, err = some e → e.code = some code → tags.lookup "code" = some code) ∧
      (∀ e, err = some e → e.code = none → tags.lookup "code" = some U) := by
  have hloop := ReportTimingFromCtx_eq_loop K U Since c rs typ err t route hstart hroute
  have hamb : (tagsFromContext K (some c)).lookup "status" = none ∧
      (tagsFromContext K (some c)).lookup "code" = none := by
    by_cases hex : ∃ m : Tags, c.bag.lookup K.MetricTagsKey = some (CtxValue.tags m)
    · obtain ⟨m, hm⟩ := hex
      rw [tagsFromContext_of_tags K c m hm]
      exact ⟨AList.lookup_eq_none.mpr (hfree m hm).1, AList.lookup_eq_none.mpr (hfree m hm).2⟩
    · rw [tagsFromContext_of_not_tags K c (fun m hm => hex ⟨m, hm⟩)]
      exact ⟨AList.lookup_empty _, AList.lookup_empty _⟩
  obtain ⟨_, h2, _, h4⟩ := timingReserved_lookup route (if err ≠ none then "failed" else "ok")
    typ (GetErrorCode U err)
  have hstatus : (getTags K (some c) (timingReserved route
      (if err ≠ none then "failed" else "ok") typ (GetErrorCode U err))).lookup "status" =
      some (if err ≠ none then "failed" else "ok") := by
    rw [getTags_lookup, hamb.1]; exact h2
  have hcode : (getTags K (some c) (timingReserved route
      (if err ≠ none then "failed" else "ok") typ (GetErrorCode U err))).lookup "code" =
      some (GetErrorCode U err) := by
    rw [getTags_lookup, hamb.2]; exact h4
  refine ⟨_, hloop, ?_, ?_, ?_, hcode, ?_, ?_, ?_⟩
  · rw [hloop]; exact reportSummaryLoop_head _ _ rs _ hrs
  · rw [hstatus]
    cases err with
    | none => simp
    | some e => simp
  · intro hne
    rw [hstatus]
    simp [hne]
  · intro hnil
    rw [hcode, hnil]; rfl
  · intro e code he hc
    rw [hcode, he]
    simp [GetErrorCode, hc]
  · intro e he hc
    rw [hcode, he]
    simp [GetErrorCode, hc]

/-- C4 witness: the `test-failed-route-with-error` scenario (error with structured code
"GAME-404", no ad-hoc tags). -/
theorem timing_status_and_code_without_colliding_tags_witness :
    ∃ tags : Tags,
      ReportTimingFromCtx sampleKeys "UNKNOWN" (fun t => 200 - t) (some (testCtx 0 "R"))
        [mockReporter none] "T" (some (ErrorValue.mk "error" (some "GAME-404"))) =
        reportSummaryLoop ResponseTime (((fun t => 200 - t) (0 : Int) : Int) : ℚ)
          [mockReporter none] tags ∧
      (ReportTimingFromCtx sampleKeys "UNKNOWN" (fun t => 200 - t) (some (testCtx 0 "R"))
        [mockReporter none] "T" (some (ErrorValue.mk "error" (some "GAME-404")))).calls.head? =
        some ⟨ResponseTime, tags, (((fun t => 200 - t) (0 : Int) : Int) : ℚ)⟩ ∧
      (tags.lookup "status" = some "ok" ↔
        (some (ErrorValue.mk "error" (some "GAME-404")) : GoError) = none) ∧
      ((some (ErrorValue.mk "error" (some "GAME-404")) : GoError) ≠ none →
        tags.lookup "status" = some "failed") ∧
      tags.lookup "code" =
        some (GetErrorCode "UNKNOWN" (some (ErrorValue.mk "error" (some "GAME-404")))) ∧
      ((some (ErrorValue.mk "error" (some "GAME-404")) : GoError) = none →
        tags.lookup "code" = some "") ∧
      (∀ e code, (some (ErrorValue.mk "error" (some "GAME-404")) : GoError) = some e →
        e.code = some code → tags.lookup "code" = some code) ∧
      (∀ e, (some (ErrorValue.mk "error" (some "GAME-404")) : GoError) = some e →
        e.code = none → tags.lookup "code" = some "UNKNOWN") :=
  timing_status_and_code_without_colliding_tags sampleKeys "UNKNOWN" (fun t => 200 - t)
    (testCtx 0 "R") [mockReporter none] "T" (some (ErrorValue.mk "error" (some "GAME-404")))
    0 "R" (by decide) (by decide) (List.cons_ne_nil _ _)
    (fun m hm => by
      have hnone : (testCtx 0 "R").bag.lookup sampleKeys.MetricTagsKey = none := by decide
      rw [hnone] at hm
      cases hm)

/-- C5: with a nil context (whatever the reporter list) or with an empty reporter list
(whatever the context), `ReportTimingFromCtx` delivers no call to any reporter and ends
normally. -/
theorem no_call_for_nil_context_or_no_reporter (K : CtxKeys) (U : String) (Since : Int → Int)
    (typ : String) (err : GoError) :
    (∀ rs : List Reporter, ReportTimingFromCtx K U Since none rs typ err = ⟨[], false⟩) ∧
    (∀ ctx : Context, ReportTimingFromCtx K U Since ctx [] typ err = ⟨[], false⟩) := by
  constructor
  · intro rs
    rfl
  · intro ctx
    cases ctx with
    | none => rfl
    | some c => simp [ReportTimingFromCtx]

/-- The loop of `ensureLabels` over an entry list: a key of the label map keeps its value,
any other key gets the value the entry list gives it. -/
theorem lookup_foldl_ensure (k : String) :
    ∀ (l : List (Sigma (fun _ : String => String))) (L : Tags),
      (l.foldl (fun (labels : Tags) s =>
          match labels.lookup s.1 with
          | some _ => labels
          | none => labels.insert s.1 s.2) L).lookup k =
        match L.lookup k with
        | some v => some v
        | none => List.dlookup k l := by
  intro l
  induction l with
  | nil =>
    intro L
    simp only [List.foldl_nil, List.dlookup_nil]
    cases L.lookup k <;> rfl
  | cons hd tl ih =>
    intro L
    obtain ⟨a, b⟩ := hd
    simp only [List.foldl_cons]
    rw [ih]
    cases ha : L.lookup a with
    | some w =>
      simp only
      cases hk : L.lookup k with
      | some v => rfl
      | none =>
        have hne : k ≠ a := by
          intro h
          rw [h, ha] at hk
          cases hk
        simp only
        exact (List.dlookup_cons_ne _ _ (fun h => hne h)).symm
    | none =>
      simp only
      by_cases hka : k = a
      · subst hka
        simp [AList.lookup_insert, ha, List.dlookup_cons_eq]
      · rw [AList.lookup_insert_ne hka]
        cases L.lookup k with
        | some v => rfl
        | none =>
          simp only
          exact (List.dlookup_cons_ne _ _ (fun h => hka h)).symm

/-- After an assignment to the nil map has panicked, the loop of `ensureLabels` stays
panicked. -/
theorem foldl_ensure_panicked (l : List (Sigma (fun _ : String => String))) :
    l.foldl (fun (acc : Option (Option Tags)) s =>
        match acc with
        | none => none
        | some labels => ensureStep labels s.1 s.2) none = none := by
  induction l with
  | nil => rfl
  | cons hd tl ih => simpa using ih

/-- On a map that is not nil the loop of `ensureLabels` never panics and fills in the missing
keys. -/
theorem foldl_ensure_some (l : List (Sigma (fun _ : String => String))) (L : Tags) :
    l.foldl (fun (acc : Option (Option Tags)) s =>
        match acc with
        | none => none
        | some labels => ensureStep labels s.1 s.2) (some (some L)) =
      some (some (l.foldl (fun (labels : Tags) s =>
          match labels.lookup s.1 with
          | some _ => labels
          | none => labels.insert s.1 s.2) L)) := by
  induction l generalizing L with
  | nil => rfl
  | cons hd tl ih =>
    simp only [List.foldl_cons, ensureStep, readMap]
    cases h : L.lookup hd.1 with
    | none => simp only [h]; exact ih _
    | some w => simp only [h]; exact ih _

/-- On the nil map the loop of `ensureLabels` returns nil when there is no default and
panics at its first default otherwise. -/
theorem foldl_ensure_nil (l : List (Sigma (fun _ : String => String))) :
    l.foldl (fun (acc : Option (Option Tags)) s =>
        match acc with
        | none => none
        | some labels => ensureStep labels s.1 s.2) (some none) =
      match l with
      | [] => some none
      | _ :: _ => none := by
  cases l with
  | nil => rfl
  | cons hd tl =>
    simp only [List.foldl_cons, ensureStep, readMap, AList.lookup_empty]
    exact foldl_ensure_panicked tl

/-- The label map returned by `ensureLabels` for a map that is not nil, key by key. -/
theorem ensureLabels_some (p : PrometheusReporter) (L : Tags) :
    ∃ R : Tags, p.ensureLabels (some L) = some (some R) ∧
      ∀ k, R.lookup k =
        match L.lookup k with
        | some v => some v
        | none => p.additionalLabels.lookup k := by
  refine ⟨_, ?_, fun k => lookup_foldl_ensure k p.additionalLabels.entries L⟩
  unfold PrometheusReporter.ensureLabels AList.foldl
  exact foldl_ensure_some p.additionalLabels.entries L

/-- C2 (as stated, refuted): for the nil label map and the default `region ↦ us`,
`ensureLabels` returns no map: the assignment `labels[key] = defaultVal` panics. -/
theorem ensureLabels_nil_map_panics :
    (labelsOnlyReporter ((∅ : Tags).insert "region" "us")).additionalLabels.lookup "region" =
      some "us" ∧
    (labelsOnlyReporter ((∅ : Tags).insert "region" "us")).ensureLabels none = none := by
  constructor
  · decide
  · rfl

/-- C2 (amended): for every label map `L` that is not nil and every additional-label default
map `D` held by the reporter, `ensureLabels(L)` returns a map whose keys are exactly the keys
of `L` and of `D`, in which every key of `L` keeps the value it has in `L` and every key of
`D` that is not in `L` has the default value of `D`; for the nil label map it returns nil
when `D` is empty and panics when `D` has an entry. -/
theorem ensureLabels_keeps_labels_and_adds_defaults (p : PrometheusReporter) :
    (∀ L : Tags, ∃ R : Tags, p.ensureLabels (some L) = some (some R) ∧
      (∀ k, k ∈ R ↔ (k ∈ L ∨ k ∈ p.additionalLabels)) ∧
      (∀ k v, L.lookup k = some v → R.lookup k = some v) ∧
      (∀ k v, k ∉ L → p.additionalLabels.lookup k = some v → R.lookup k = some v)) ∧
    ((∀ k, k ∉ p.additionalLabels) → p.ensureLabels none = some none) ∧
    ((∃ k, k ∈ p.additionalLabels) → p.ensureLabels none = none) := by
  refine ⟨?_, ?_, ?_⟩
  · intro L
    obtain ⟨R, hR, hlook⟩ := ensureLabels_some p L
    refine ⟨R, hR, ?_, ?_, ?_⟩
    · intro k
      rw [← AList.lookup_isSome, ← AList.lookup_isSome, ← AList.lookup_isSome, hlook]
      cases L.lookup k <;> simp
    · intro k v hk
      rw [hlook, hk]
    · intro k v hk hd
      rw [hlook, AList.lookup_eq_none.mpr hk]
      exact hd
  · intro hempty
    unfold PrometheusReporter.ensureLabels AList.foldl
    rw [foldl_ensure_nil]
    cases hent : p.additionalLabels.entries with
    | nil => rfl
    | cons hd tl =>
      exfalso
      apply hempty hd.1
      rw [AList.mem_keys, AList.keys, hent]
      simp [List.keys]
  · rintro ⟨k, hk⟩
    unfold PrometheusReporter.ensureLabels AList.foldl
    rw [foldl_ensure_nil]
    cases hent : p.additionalLabels.entries with
    | nil =>
      exfalso
      rw [AList.mem_keys, AList.keys, hent] at hk
      simp [List.keys] at hk
    | cons hd tl => rfl

/-- C2 witness: labels `route ↦ R`, defaults `region ↦ us` and `route ↦ default`: the result
keeps `route ↦ R` and gains `region ↦ us`; the nil map with these defaults panics. -/
theorem ensureLabels_keeps_labels_and_adds_defaults_witness :
    (∃ R : Tags,
      (labelsOnlyReporter
        (((∅ : Tags).insert "region" "us").insert "route" "default")).ensureLabels
        (some ((∅ : Tags).insert "route" "R")) = some (some R) ∧
      R.lookup "route" = some "R" ∧ R.lookup "region" = some "us") ∧
    (labelsOnlyReporter
      (((∅ : Tags).insert "region" "us").insert "route" "default")).ensureLabels none =
      none := by
  have h := ensureLabels_keeps_labels_and_adds_defaults
    (labelsOnlyReporter (((∅ : Tags).insert "region" "us").insert "route" "default"))
  have h1 : ((∅ : Tags).insert "route" "R").lookup "route" = some "R" := by decide
  have h2 : "region" ∉ ((∅ : Tags).insert "route" "R") := by decide
  have h3 : (labelsOnlyReporter
      (((∅ : Tags).insert "region" "us").insert "route" "default")).additionalLabels.lookup
      "region" = some "us" := by decide
  have h4 : "region" ∈ (labelsOnlyReporter
      (((∅ : Tags).insert "region" "us").insert "route" "default")).additionalLabels := by
    decide
  obtain ⟨R, hR, _, hkeep, hadd⟩ := h.1 ((∅ : Tags).insert "route" "R")
  exact ⟨⟨R, hR, hkeep "route" "R" h1, hadd "region" "us" h2 h3⟩, h.2.2 ⟨"region", h4⟩⟩

/-- C6 (as stated, refuted): `response_time` is a key of the summary table, yet reporting it
with an empty label map does not return: the label check of the series library fails and the
call panics. -/
theorem known_metric_with_wrong_labels_panics :
    ResponseTime ∈ (sampleReporter ∅).summaryReportersMap ∧
    (sampleReporter ∅).ReportSummary ResponseTime (some ∅) 1 = ReportOutcome.panicked := by
  constructor
  · decide
  · rfl

/-- A known metric reported with the nil label map while an additional label is configured:
the call panics in `ensureLabels`, before the series library is reached. -/
theorem known_metric_with_nil_labels_panics :
    ConnectedClients ∈ (sampleReporter ((∅ : Tags).insert "region" "us")).gaugeReportersMap ∧
    (sampleReporter ((∅ : Tags).insert "region" "us")).ReportGauge ConnectedClients none 1 =
      ReportOutcome.panicked := by
  constructor
  · decide
  · rfl

/-- C6 (amended): for each of `ReportSummary`, `ReportHistogram`, `ReportGauge` and
`ReportCount` and every label map (nil or not): a metric name that is not a key of the
operation's table makes the call return `ErrMetricNotKnown` with the reporter (all four
tables, every series) and the caller's label map unchanged; a metric name that is a key never
yields `ErrMetricNotKnown`: the call panics when `ensureLabels` has to write a default into
the nil label map, it panics when the series library rejects the completed label map (and,
for `ReportCount`, when the count is negative), and in every other case it returns no error
and hands back the completed label map. -/
theorem report_unknown_is_error_known_is_observed (p : PrometheusReporter) (metric : String)
    (labels : Option Tags) (value : Float64) :
    ((metric ∉ p.summaryReportersMap →
        p.ReportSummary metric labels value =
          ReportOutcome.returned p labels (some ErrMetricNotKnown)) ∧
      (∀ v, p.summaryReportersMap.lookup metric = some v → p.ensureLabels labels = none →
        p.ReportSummary metric labels value = ReportOutcome.panicked) ∧
      (∀ v l', p.summaryReportersMap.lookup metric = some v → p.ensureLabels labels = some l' →
        v.accepts (readMap l') = true →
        ∃ p', p.ReportSummary metric labels value = ReportOutcome.returned p' l' none) ∧
      (∀ v l', p.summaryReportersMap.lookup metric = some v → p.ensureLabels labels = some l' →
        v.accepts (readMap l') = false →
        p.ReportSummary metric labels value = ReportOutcome.panicked)) ∧
    ((metric ∉ p.histogramReportersMap →
        p.ReportHistogram metric labels value =
          ReportOutcome.returned p labels (some ErrMetricNotKnown)) ∧
      (∀ v, p.histogramReportersMap.lookup metric = some v → p.ensureLabels labels = none →
        p.ReportHistogram metric labels value = ReportOutcome.panicked) ∧
      (∀ v l', p.histogramReportersMap.lookup metric = some v → p.ensureLabels labels = some l' →
        v.accepts (readMap l') = true →
        ∃ p', p.ReportHistogram metric labels value = ReportOutcome.returned p' l' none) ∧
      (∀ v l', p.histogramReportersMap.lookup metric = some v → p.ensureLabels labels = some l' →
        v.accepts (readMap l') = false →
        p.ReportHistogram metric labels value = ReportOutcome.panicked)) ∧
    ((metric ∉ p.gaugeReportersMap →
        p.ReportGauge metric labels value =
          ReportOutcome.returned p labels (some ErrMetricNotKnown)) ∧
      (∀ v, p.gaugeReportersMap.lookup metric = some v → p.ensureLabels labels = none →
        p.ReportGauge metric labels value = ReportOutcome.panicked) ∧
      (∀ v l', p.gaugeReportersMap.lookup metric = some v → p.ensureLabels labels = some l' →
        v.accepts (readMap l') = true →
        ∃ p', p.ReportGauge metric labels value = ReportOutcome.returned p' l' none) ∧
      (∀ v l', p.gaugeReportersMap.lookup metric = some v → p.ensureLabels labels = some l' →
        v.accepts (readMap l') = false →
        p.ReportGauge metric labels value = ReportOutcome.panicked)) ∧
    ((metric ∉ p.countReportersMap →
        p.ReportCount metric labels value =
          ReportOutcome.returned p labels (some ErrMetricNotKnown)) ∧
      (∀ v, p.countReportersMap.lookup metric = some v → p.ensureLabels labels = none →
        p.ReportCount metric labels value = ReportOutcome.panicked) ∧
      (∀ v l', p.countReportersMap.lookup metric = some v → p.ensureLabels labels = some l' →
        v.accepts (readMap l') = true → 0 ≤ value →
        ∃ p', p.ReportCount metric labels value = ReportOutcome.returned p' l' none) ∧
      (∀ v l', p.countReportersMap.lookup metric = some v → p.ensureLabels labels = some l' →
        v.accepts (readMap l') = false →
        p.ReportCount metric labels value = ReportOutcome.panicked) ∧
      (∀ v l', p.countReportersMap.lookup metric = some v → p.ensureLabels labels = some l' →
        value < 0 → p.ReportCount metric labels value = ReportOutcome.panicked)) := by
  refine ⟨?_, ?_, ?_, ?_⟩
  · refine ⟨?_, ?_, ?_, ?_⟩
    · intro hmem
      have hnone : p.summaryReportersMap.lookup metric = none := AList.lookup_eq_none.mpr hmem
      simp [PrometheusReporter.ReportSummary, hnone]
    · intro v hv hl
      simp [PrometheusReporter.ReportSummary, hv, hl]
    · intro v l' hv hl hacc
      simp [PrometheusReporter.ReportSummary, hv, hl, MetricVec.withObserve, hacc]
    · intro v l' hv hl hacc
      simp [PrometheusReporter.ReportSummary, hv, hl, MetricVec.withObserve, hacc]
  · refine ⟨?_, ?_, ?_, ?_⟩
    · intro hmem
      have hnone : p.histogramReportersMap.lookup metric = none := AList.lookup_eq_none.mpr hmem
      simp [PrometheusReporter.ReportHistogram, hnone]
    · intro v hv hl
      simp [PrometheusReporter.ReportHistogram, hv, hl]
    · intro v l' hv hl hacc
      simp [PrometheusReporter.ReportHistogram, hv, hl, MetricVec.withObserve, hacc]
    · intro v l' hv hl hacc
      simp [PrometheusReporter.ReportHistogram, hv, hl, MetricVec.withObserve, hacc]
  · refine ⟨?_, ?_, ?_, ?_⟩
    · intro hmem
      have hnone : p.gaugeReportersMap.lookup metric = none := AList.lookup_eq_none.mpr hmem
      simp [PrometheusReporter.ReportGauge, hnone]
    · intro v hv hl
      simp [PrometheusReporter.ReportGauge, hv, hl]
    · intro v l' hv hl hacc
      simp [PrometheusReporter.ReportGauge, hv, hl, MetricVec.withObserve, hacc]
    · intro v l' hv hl hacc
      simp [PrometheusReporter.ReportGauge, hv, hl, MetricVec.withObserve, hacc]
  · refine ⟨?_, ?_, ?_, ?_, ?_⟩
    · intro hmem
      have hnone : p.countReportersMap.lookup metric = none := AList.lookup_eq_none.mpr hmem
      simp [PrometheusReporter.ReportCount, hnone]
    · intro v hv hl
      simp [PrometheusReporter.ReportCount, hv, hl]
    · intro v l' hv hl hacc hpos
      have hnot : ¬ value < 0 := not_lt.mpr hpos
      simp [PrometheusReporter.ReportCount, hv, hl, MetricVec.withObserve, hacc, hnot]
    · intro v l' hv hl hacc
      simp [PrometheusReporter.ReportCount, hv, hl, MetricVec.withObserve, hacc]
    · intro v l' hv hl hneg
      cases hacc : v.accepts (readMap l') <;>
        simp [PrometheusReporter.ReportCount, hv, hl, MetricVec.withObserve, hacc, hneg]

/-- C6 witness: on the sample reporter, `response_time` with the four catalog labels is
observed and returns no error, and the unregistered name `nope` returns
`ErrMetricNotKnown`. -/
theorem report_unknown_is_error_known_is_observed_witness :
    (∃ p', (sampleReporter ∅).ReportSummary ResponseTime
        (some (timingReserved "R" "ok" "T" "")) 1 =
      ReportOutcome.returned p' (some (timingReserved "R" "ok" "T" "")) none) ∧
    (sampleReporter ∅).ReportSummary "nope" (some (timingReserved "R" "ok" "T" "")) 1 =
      ReportOutcome.returned (sampleReporter ∅) (some (timingReserved "R" "ok" "T" ""))
        (some ErrMetricNotKnown) := by
  have h := report_unknown_is_error_known_is_observed (sampleReporter ∅) ResponseTime
    (some (timingReserved "R" "ok" "T" "")) 1
  have h' := report_unknown_is_error_known_is_observed (sampleReporter ∅) "nope"
    (some (timingReserved "R" "ok" "T" "")) 1
  have hv : (sampleReporter ∅).summaryReportersMap.lookup ResponseTime =
      some (NewVec (Opts.mk "metrics" "handler" ResponseTime
        "the time to process a msg in nanoseconds"
        (((∅ : Tags).insert "game" "").insert "serverType" "game-server")
        handlerObjectives [])
        (["route", "status", "type", "code"] ++ [])) := rfl
  have hl : (sampleReporter ∅).ensureLabels (some (timingReserved "R" "ok" "T" "")) =
      some (some (timingReserved "R" "ok" "T" "")) := rfl
  have hnope : "nope" ∉ (sampleReporter ∅).summaryReportersMap := by decide
  exact ⟨h.1.2.2.1 _ _ hv hl (by decide), h'.1.1 hnope⟩

/-- C7: `StatsdReporter.ReportHistogram` returns `ErrNotImplemented`; the reporter after the
call is the reporter before it, so no operation has been invoked on its client, and the label
map is untouched. -/
theorem statsd_histogram_not_implemented (s : StatsdReporter) (metric : String) (tagsMap : Tags)
    (value : Float64) :
    ∃ s', s.ReportHistogram metric tagsMap value =
        Outcome.returned s' tagsMap (some ErrNotImplemented) ∧
      s' = s ∧ s'.client.invoked = s.client.invoked :=
  ⟨s, rfl, rfl, rfl⟩

/-- C8 (evaluation at the failing input): a registry-backed reporter with the additional
label `region ↦ us`, followed by a second reporter.  Both receive one `ReportSummary` of
`response_time`, but the second one receives a tag map that carries `region ↦ us`, written
into the shared map by the first reporter; behind a reporter that leaves the map alone the
same second reporter receives no such entry. -/
theorem fanout_second_reporter_sees_first_reporters_labels :
    (ReportTimingFromCtx sampleKeys "UNKNOWN" (fun t => 200 - t) (some (testCtx 0 "R"))
      [(sampleReporter ((∅ : Tags).insert "region" "us")).toReporter, mockReporter none]
      "T" none).calls.map (fun call => (call.metric, call.tags.lookup "region"))
      = [("response_time", none), ("response_time", some "us")] ∧
    (ReportTimingFromCtx sampleKeys "UNKNOWN" (fun t => 200 - t) (some (testCtx 0 "R"))
      [mockReporter none, mockReporter none]
      "T" none).calls.map (fun call => (call.metric, call.tags.lookup "region"))
      = [("response_time", none), ("response_time", none)] := by
  constructor <;> decide

/-- C9 (evaluation at the failing input): after `registerMetrics` with no constant label, no
additional label and an empty custom specification, the histogram table holds the
`response_time` histogram, but the collector list handed to the registry contains no
histogram at all. -/
theorem response_time_histogram_not_registered :
    ResponseTime ∈
      ((newPrometheusReporter "game-server").registerMetrics "metrics" ∅ ∅
        ⟨[], [], [], []⟩).1.histogramReportersMap ∧
    ((newPrometheusReporter "game-server").registerMetrics "metrics" ∅ ∅
      ⟨[], [], [], []⟩).2.any Collector.isHistogram = false ∧
    ((newPrometheusReporter "game-server").registerMetrics "metrics" ∅ ∅
      ⟨[], [], [], []⟩).2.length = 13 := by
  refine ⟨?_, ?_, ?_⟩ <;> decide

/-- Collecting the keys of a map in a `range` loop yields its key list. -/
theorem foldl_collect_keys (A : Tags) :
    A.foldl (fun (keys : List String) key _ => keys ++ [key]) [] = A.keys := by
  have hgen : ∀ (l : List (Sigma (fun _ : String => String))) (init : List String),
      l.foldl (fun (keys : List String) s => keys ++ [s.1]) init = init ++ l.keys := by
    intro l
    induction l with
    | nil => intro init; simp
    | cons hd tl ih =>
      intro init
      simp only [List.foldl_cons, ih, List.keys_cons, List.append_assoc, List.singleton_append]
  unfold AList.foldl
  rw [hgen]
  rfl

/-- An empty table satisfies the schema invariant. -/
theorem tableHas_empty (keys : List String) : TableHas keys (∅ : Table) := by
  intro name v h
  rw [AList.lookup_empty] at h
  cases h

/-- Storing a series whose schema has all the keys preserves the schema invariant. -/
theorem tableHas_insert (keys : List String) (t : Table) (n : String) (v : MetricVec)
    (ht : TableHas keys t) (hv : ∀ k ∈ keys, k ∈ v.labelNames) :
    TableHas keys (t.insert n v) := by
  intro name w h
  by_cases hn : name = n
  · subst hn
    rw [AList.lookup_insert] at h
    cases h
    exact hv
  · rw [AList.lookup_insert_ne hn] at h
    exact ht name w h

/-- The schema invariant is kept by `p.summaryReportersMap[n] = v`. -/
theorem allSeriesHave_setSummary (keys : List String) (p : PrometheusReporter) (n : String)
    (v : MetricVec) (hp : AllSeriesHave keys p) (hv : ∀ k ∈ keys, k ∈ v.labelNames) :
    AllSeriesHave keys (p.setSummary n v) :=
  ⟨hp.1, hp.2.1, tableHas_insert keys _ n v hp.2.2.1 hv, hp.2.2.2⟩

/-- The schema invariant is kept by `p.histogramReportersMap[n] = v`. -/
theorem allSeriesHave_setHistogram (keys : List String) (p : PrometheusReporter) (n : String)
    (v : MetricVec) (hp : AllSeriesHave keys p) (hv : ∀ k ∈ keys, k ∈ v.labelNames) :
    AllSeriesHave keys (p.setHistogram n v) :=
  ⟨hp.1, hp.2.1, hp.2.2.1, tableHas_insert keys _ n v hp.2.2.2 hv⟩

/-- The schema invariant is kept by `p.gaugeReportersMap[n] = v`. -/
theorem allSeriesHave_setGauge (keys : List String) (p : PrometheusReporter) (n : String)
    (v : MetricVec) (hp : AllSeriesHave keys p) (hv : ∀ k ∈ keys, k ∈ v.labelNames) :
    AllSeriesHave keys (p.setGauge n v) :=
  ⟨hp.1, tableHas_insert keys _ n v hp.2.1 hv, hp.2.2.1, hp.2.2.2⟩

/-- The schema invariant is kept by `p.countReportersMap[n] = v`. -/
theorem allSeriesHave_setCounter (keys : List String) (p : PrometheusReporter) (n : String)
    (v : MetricVec) (hp : AllSeriesHave keys p) (hv : ∀ k ∈ keys, k ∈ v.labelNames) :
    AllSeriesHave keys (p.setCounter n v) :=
  ⟨tableHas_insert keys _ n v hp.1 hv, hp.2.1, hp.2.2.1, hp.2.2.2⟩

/-- A vector declared with labels `pre ++ keys` has all of `keys` in its schema. -/
theorem newVec_has_keys_after (o : Opts) (pre keys : List String) :
    ∀ k ∈ keys, k ∈ (NewVec o (pre ++ keys)).labelNames :=
  fun _ hk => List.mem_append_right pre hk

/-- A vector declared with labels `keys ++ post` has all of `keys` in its schema. -/
theorem newVec_has_keys_before (o : Opts) (keys post : List String) :
    ∀ k ∈ keys, k ∈ (NewVec o (keys ++ post)).labelNames :=
  fun _ hk => List.mem_append_left post hk

/-- A vector declared with labels `keys` has all of `keys` in its schema. -/
theorem newVec_has_keys (o : Opts) (keys : List String) :
    ∀ k ∈ keys, k ∈ (NewVec o keys).labelNames :=
  fun _ hk => hk

/-- `registerCustomMetrics` keeps the schema invariant for the additional-label keys. -/
theorem allSeriesHave_registerCustomMetrics (PREFIX : String) (p : PrometheusReporter)
    (constLabels : Tags) (keys : List String) (spec : CustomMetricsSpec)
    (hp : AllSeriesHave keys p) :
    AllSeriesHave keys (p.registerCustomMetrics PREFIX constLabels keys spec) := by
  unfold PrometheusReporter.registerCustomMetrics
  have h1 : ∀ (l : List SummarySpec) (q : PrometheusReporter), AllSeriesHave keys q →
      AllSeriesHave keys (l.foldl (fun (p : PrometheusReporter) sm =>
        p.setSummary sm.Name
          (NewVec ⟨PREFIX, sm.Subsystem, sm.Name, sm.Help, constLabels, sm.Objectives, []⟩
            (keys ++ sm.Labels))) q) := by
    intro l
    induction l with
    | nil => intro q hq; exact hq
    | cons hd tl ih =>
      intro q hq
      exact ih _ (allSeriesHave_setSummary keys q _ _ hq (newVec_has_keys_before _ keys _))
  have h2 : ∀ (l : List HistogramSpec) (q : PrometheusReporter), AllSeriesHave keys q →
      AllSeriesHave keys (l.foldl (fun (p : PrometheusReporter) hg =>
        p.setHistogram hg.Name
          (NewVec ⟨PREFIX, hg.Subsystem, hg.Name, hg.Help, constLabels, [], hg.Buckets⟩
            (keys ++ hg.Labels))) q) := by
    intro l
    induction l with
    | nil => intro q hq; exact hq
    | cons hd tl ih =>
      intro q hq
      exact ih _ (allSeriesHave_setHistogram keys q _ _ hq (newVec_has_keys_before _ keys _))
  have h3 : ∀ (l : List GaugeSpec) (q : PrometheusReporter), AllSeriesHave keys q →
      AllSeriesHave keys (l.foldl (fun (p : PrometheusReporter) gg =>
        p.setGauge gg.Name
          (NewVec ⟨PREFIX, gg.Subsystem, gg.Name, gg.Help, constLabels, [], []⟩
            (keys ++ gg.Labels))) q) := by
    intro l
    induction l with
    | nil => intro q hq; exact hq
    | cons hd tl ih =>
      intro q hq
      exact ih _ (allSeriesHave_setGauge keys q _ _ hq (newVec_has_keys_before _ keys _))
  have h4 : ∀ (l : List CounterSpec) (q : PrometheusReporter), AllSeriesHave keys q →
      AllSeriesHave keys (l.foldl (fun (p : PrometheusReporter) cn =>
        p.setCounter cn.Name
          (NewVec ⟨PREFIX, cn.Subsystem, cn.Name, cn.Help, constLabels, [], []⟩
            (keys ++ cn.Labels))) q) := by
    intro l
    induction l with
    | nil => intro q hq; exact hq
    | cons hd tl ih =>
      intro q hq
      exact ih _ (allSeriesHave_setCounter keys q _ _ hq (newVec_has_keys_before _ keys _))
  exact h4 _ _ (h3 _ _ (h2 _ _ (h1 _ _ hp)))

/-- After `registerMetrics` on a freshly constructed reporter every series of the four
tables has every additional-label key in its schema. -/
theorem allSeriesHave_registerMetrics (PREFIX serverType : String) (constLabels A : Tags)
    (spec : CustomMetricsSpec) :
    AllSeriesHave A.keys ((newPrometheusReporter serverType).registerMetrics PREFIX constLabels A spec).1 := by
  have h0 : AllSeriesHave A.keys
      { newPrometheusReporter serverType with additionalLabels := A } :=
    ⟨tableHas_empty _, tableHas_empty _, tableHas_empty _, tableHas_empty _⟩
  simp only [PrometheusReporter.registerMetrics, foldl_collect_keys]
  refine allSeriesHave_setCounter _ _ _ _ ?_ (newVec_has_keys _ _)
  refine allSeriesHave_setGauge _ _ _ _ ?_ (newVec_has_keys_after _ _ _)
  refine allSeriesHave_setGauge _ _ _ _ ?_ (newVec_has_keys_after _ _ _)
  refine allSeriesHave_setGauge _ _ _ _ ?_ (newVec_has_keys _ _)
  refine allSeriesHave_setGauge _ _ _ _ ?_ (newVec_has_keys _ _)
  refine allSeriesHave_setGauge _ _ _ _ ?_ (newVec_has_keys _ _)
  refine allSeriesHave_setGauge _ _ _ _ ?_ (newVec_has_keys _ _)
  refine allSeriesHave_setGauge _ _ _ _ ?_ (newVec_has_keys _ _)
  refine allSeriesHave_setGauge _ _ _ _ ?_ (newVec_has_keys_after _ _ _)
  refine allSeriesHave_setGauge _ _ _ _ ?_ (newVec_has_keys_after _ _ _)
  refine allSeriesHave_setGauge _ _ _ _ ?_ (newVec_has_keys _ _)
  refine allSeriesHave_setSummary _ _ _ _ ?_ (newVec_has_keys_after _ _ _)
  refine allSeriesHave_setHistogram _ _ _ _ ?_ (newVec_has_keys_after _ _ _)
  refine allSeriesHave_setSummary _ _ _ _ ?_ (newVec_has_keys_after _ _ _)
  exact allSeriesHave_registerCustomMetrics _ _ _ _ _ h0

/-- C10: after `registerMetrics` on the freshly constructed reporter, for every
additional-label map `A` and custom specification, the label-key schema of every series in
the counter, gauge, summary and histogram tables contains every key of `A`, and the schema of
each built-in series is its catalog labels followed by the keys of `A`. -/
theorem every_series_schema_has_additional_labels (PREFIX serverType : String)
    (constLabels A : Tags) (spec : CustomMetricsSpec) :
    (∀ name v,
      (((newPrometheusReporter serverType).registerMetrics PREFIX constLabels A spec).1.countReportersMap.lookup name = some v ∨
       ((newPrometheusReporter serverType).registerMetrics PREFIX constLabels A spec).1.gaugeReportersMap.lookup name = some v ∨
       ((newPrometheusReporter serverType).registerMetrics PREFIX constLabels A spec).1.summaryReportersMap.lookup name = some v ∨
       ((newPrometheusReporter serverType).registerMetrics PREFIX constLabels A spec).1.histogramReportersMap.lookup name = some v) →
      ∀ k, k ∈ A → k ∈ v.labelNames) ∧
    ((((newPrometheusReporter serverType).registerMetrics PREFIX constLabels A spec).1.summaryReportersMap.lookup ResponseTime).map
        MetricVec.labelNames = some (["route", "status", "type", "code"] ++ A.keys)) ∧
    ((((newPrometheusReporter serverType).registerMetrics PREFIX constLabels A spec).1.histogramReportersMap.lookup ResponseTime).map
        MetricVec.labelNames = some (["route", "status", "type", "code"] ++ A.keys)) ∧
    ((((newPrometheusReporter serverType).registerMetrics PREFIX constLabels A spec).1.summaryReportersMap.lookup ProcessDelay).map
        MetricVec.labelNames = some (["route", "type"] ++ A.keys)) ∧
    ((((newPrometheusReporter serverType).registerMetrics PREFIX constLabels A spec).1.gaugeReportersMap.lookup ConnectedClients).map
        MetricVec.labelNames = some (A.keys)) ∧
    ((((newPrometheusReporter serverType).registerMetrics PREFIX constLabels A spec).1.gaugeReportersMap.lookup CountServers).map
        MetricVec.labelNames = some (["type"] ++ A.keys)) ∧
    ((((newPrometheusReporter serverType).registerMetrics PREFIX constLabels A spec).1.gaugeReportersMap.lookup ChannelCapacity).map
        MetricVec.labelNames = some (["channel"] ++ A.keys)) ∧
    ((((newPrometheusReporter serverType).registerMetrics PREFIX constLabels A spec).1.gaugeReportersMap.lookup DroppedMessages).map
        MetricVec.labelNames = some (A.keys)) ∧
    ((((newPrometheusReporter serverType).registerMetrics PREFIX constLabels A spec).1.gaugeReportersMap.lookup Goroutines).map
        MetricVec.labelNames = some (A.keys)) ∧
    ((((newPrometheusReporter serverType).registerMetrics PREFIX constLabels A spec).1.gaugeReportersMap.lookup HeapSize).map
        MetricVec.labelNames = some (A.keys)) ∧
    ((((newPrometheusReporter serverType).registerMetrics PREFIX constLabels A spec).1.gaugeReportersMap.lookup HeapObjects).map
        MetricVec.labelNames = some (A.keys)) ∧
    ((((newPrometheusReporter serverType).registerMetrics PREFIX constLabels A spec).1.gaugeReportersMap.lookup WorkerJobsRetry).map
        MetricVec.labelNames = some (A.keys)) ∧
    ((((newPrometheusReporter serverType).registerMetrics PREFIX constLabels A spec).1.gaugeReportersMap.lookup WorkerQueueSize).map
        MetricVec.labelNames = some (["queue"] ++ A.keys)) ∧
    ((((newPrometheusReporter serverType).registerMetrics PREFIX constLabels A spec).1.gaugeReportersMap.lookup WorkerJobsTotal).map
        MetricVec.labelNames = some (["status"] ++ A.keys)) ∧
    ((((newPrometheusReporter serverType).registerMetrics PREFIX constLabels A spec).1.countReportersMap.lookup ExceededRateLimiting).map
        MetricVec.labelNames = some (A.keys)) := by
  refine ⟨?_, ?_⟩
  · intro name v hv k hk
    have hall := allSeriesHave_registerMetrics PREFIX serverType constLabels A spec
    have hk' : k ∈ A.keys := AList.mem_keys.mp hk
    rcases hv with h | h | h | h
    · exact hall.1 name v h k hk'
    · exact hall.2.1 name v h k hk'
    · exact hall.2.2.1 name v h k hk'
    · exact hall.2.2.2 name v h k hk'
  · simp [PrometheusReporter.registerMetrics, foldl_collect_keys,
      PrometheusReporter.setSummary, PrometheusReporter.setHistogram,
      PrometheusReporter.setGauge, PrometheusReporter.setCounter,
      AList.lookup_insert, AList.lookup_insert_ne, NewVec,
      ResponseTime, ProcessDelay, ConnectedClients, CountServers, ChannelCapacity,
      DroppedMessages, Goroutines, HeapSize, HeapObjects, WorkerJobsRetry, WorkerQueueSize,
      WorkerJobsTotal, ExceededRateLimiting]

/-- Appending one non-histogram collector per table entry adds no histogram to a list. -/
theorem any_isHistogram_foldl (C : MetricVec → Collector)
    (hC : ∀ v, (C v).isHistogram = false) (t : Table) (init : List Collector) :
    (t.foldl (fun toRegister _ c => toRegister ++ [C c]) init).any Collector.isHistogram =
      init.any Collector.isHistogram := by
  unfold AList.foldl
  generalize t.entries = l
  induction l generalizing init with
  | nil => rfl
  | cons hd tl ih =>
    simp only [List.foldl_cons]
    rw [ih]
    simp [hC]

/-- Whatever the inputs, `registerMetrics` stores the `response_time` histogram in the
histogram table and hands no histogram to the registry. -/
theorem registerMetrics_hands_no_histogram (PREFIX : String) (p : PrometheusReporter)
    (constLabels A : Tags) (spec : CustomMetricsSpec) :
    ResponseTime ∈ (p.registerMetrics PREFIX constLabels A spec).1.histogramReportersMap ∧
    (p.registerMetrics PREFIX constLabels A spec).2.any Collector.isHistogram = false := by
  constructor
  · simp [PrometheusReporter.registerMetrics, PrometheusReporter.setSummary,
      PrometheusReporter.setHistogram, PrometheusReporter.setGauge,
      PrometheusReporter.setCounter, AList.mem_insert]
  · simp only [PrometheusReporter.registerMetrics]
    rw [any_isHistogram_foldl Collector.summary (fun _ => rfl),
      any_isHistogram_foldl Collector.gauge (fun _ => rfl),
      any_isHistogram_foldl Collector.counter (fun _ => rfl)]
    rfl

/-- Appending one formatted tag per map entry in a `range` loop. -/
theorem foldl_append_tags (tagsMap : Tags) (init : List String) :
    tagsMap.foldl (fun (tags : List String) k v => tags ++ [k ++ ":" ++ v]) init =
      init ++ tagsMap.entries.map formatTag := by
  unfold AList.foldl
  generalize tagsMap.entries = l
  induction l generalizing init with
  | nil => simp
  | cons hd tl ih =>
    simp only [List.foldl_cons, ih, List.map_cons, List.append_assoc, List.singleton_append]
    rfl

/-- The default-tag list computed by `buildDefaultTags`. -/
theorem buildDefaultTags_defaultTags (s : StatsdReporter) (tagsMap : Tags) :
    (s.buildDefaultTags tagsMap).defaultTags =
      ("serverType:" ++ s.serverType) :: tagsMap.entries.map formatTag := by
  simp [StatsdReporter.buildDefaultTags, foldl_append_tags]

/-- A reporter returned by `NewStatsdReporter` has the configured rate and the default-tag
list of `buildDefaultTags` for the given server type and constant tags. -/
theorem NewStatsdReporter_ok (statsdNew : String → String → Except ErrorValue Client)
    (metrics : ConfigMetrics) (T : String) (clientOrNil : List Client) (s : StatsdReporter)
    (hs : NewStatsdReporter statsdNew metrics T clientOrNil = Except.ok s) :
    s.rate = metrics.GoTechBookFrameworkMetricsStatsdRate ∧
    s.defaultTags = ("serverType:" ++ T) ::
      (readMap metrics.GoTechBookFrameworkMetricsConstTags).entries.map formatTag := by
  unfold NewStatsdReporter at hs
  cases clientOrNil with
  | cons client rest =>
    simp only [Except.ok.injEq] at hs
    subst hs
    exact ⟨rfl, buildDefaultTags_defaultTags _ _⟩
  | nil =>
    simp only at hs
    cases hnew : statsdNew metrics.GoTechBookFrameworkMetricsStatsdHost
        metrics.GoTechBookFrameworkMetricsStatsdPrefix with
    | error err => rw [hnew] at hs; cases hs
    | ok c =>
      rw [hnew] at hs
      simp only [Except.ok.injEq] at hs
      subst hs
      exact ⟨rfl, buildDefaultTags_defaultTags _ _⟩

/-- C12: for every reporter `s` built by `NewStatsdReporter` from server type `T` and
constant-tag map `C`, and each of `ReportCount`, `ReportGauge` and `ReportSummary` with any
metric and caller label map `M`: the default-tag list is "serverType:T" followed by one
"k:v" per entry of `C` (length |C|+1); the call invokes exactly one client operation
(`Count`, `Gauge`, `TimeInMilliseconds` respectively) with the metric name, the configured
rate and the default-tag list followed by one "k:v" per entry of `M`; it returns the error
the client answered; and the default-tag list after the call is the one before it. -/
theorem statsd_report_invokes_client_once
    (statsdNew : String → String → Except ErrorValue Client)
    (metrics : ConfigMetrics) (T : String) (clientOrNil : List Client) (s : StatsdReporter)
    (hs : NewStatsdReporter statsdNew metrics T clientOrNil = Except.ok s)
    (metric : String) (M : Tags) (value : Float64) :
    (s).defaultTags = ("serverType:" ++ T) :: (readMap (metrics).GoTechBookFrameworkMetricsConstTags).entries.map formatTag ∧
    (s).defaultTags.length = (readMap (metrics).GoTechBookFrameworkMetricsConstTags).entries.length + 1 ∧
    (s).rate = (metrics).GoTechBookFrameworkMetricsStatsdRate ∧
    (∃ s', (s).ReportCount metric M value =
        Outcome.returned s' M
          ((s).client.answer (ClientCall.Count metric (toInt64 value)
            ((s).defaultTags ++ (M).entries.map formatTag) (s).rate)) ∧
      s'.client.invoked = (s).client.invoked ++
        [ClientCall.Count metric (toInt64 value)
            ((s).defaultTags ++ (M).entries.map formatTag) (s).rate] ∧
      s'.defaultTags = (s).defaultTags) ∧
    (∃ s', (s).ReportGauge metric M value =
        Outcome.returned s' M
          ((s).client.answer (ClientCall.Gauge metric value
            ((s).defaultTags ++ (M).entries.map formatTag) (s).rate)) ∧
      s'.client.invoked = (s).client.invoked ++
        [ClientCall.Gauge metric value
            ((s).defaultTags ++ (M).entries.map formatTag) (s).rate] ∧
      s'.defaultTags = (s).defaultTags) ∧
    (∃ s', (s).ReportSummary metric M value =
        Outcome.returned s' M
          ((s).client.answer (ClientCall.TimeInMilliseconds metric value
            ((s).defaultTags ++ (M).entries.map formatTag) (s).rate)) ∧
      s'.client.invoked = (s).client.invoked ++
        [ClientCall.TimeInMilliseconds metric value
            ((s).defaultTags ++ (M).entries.map formatTag) (s).rate] ∧
      s'.defaultTags = (s).defaultTags) := by
  obtain ⟨hrate, htags⟩ := NewStatsdReporter_ok statsdNew metrics T clientOrNil s hs
  refine ⟨htags, ?_, hrate, ?_, ?_, ?_⟩
  · rw [htags]
    simp
  · exact ⟨{ s with client := (s.client.invoke (ClientCall.Count metric (toInt64 value)
        (s.defaultTags ++ M.entries.map formatTag) s.rate)).1 },
      by simp [StatsdReporter.ReportCount, Client.invoke, appendTags, foldl_append_tags],
      rfl, rfl⟩
  · exact ⟨{ s with client := (s.client.invoke (ClientCall.Gauge metric value
        (s.defaultTags ++ M.entries.map formatTag) s.rate)).1 },
      by simp [StatsdReporter.ReportGauge, Client.invoke, appendTags, foldl_append_tags],
      rfl, rfl⟩
  · exact ⟨{ s with client := (s.client.invoke (ClientCall.TimeInMilliseconds metric value
        (s.defaultTags ++ M.entries.map formatTag) s.rate)).1 },
      by simp [StatsdReporter.ReportSummary, Client.invoke, appendTags, foldl_append_tags],
      rfl, rfl⟩

/-- C12 witness: the sample reporter (constant tag `env ↦ prod`, server type "game-server",
a client handed to the constructor), metric `connected_clients`, caller labels `room ↦ 1`. -/
theorem statsd_report_invokes_client_once_witness :
    NewStatsdReporter (fun _ _ => Except.error ErrNotImplemented) sampleMetrics "game-server"
      [freshClient none] = Except.ok sampleStatsd ∧
    sampleStatsd.defaultTags = ["serverType:game-server", "env:prod"] ∧
    (sampleStatsd).defaultTags = ("serverType:" ++ "game-server") :: (readMap (sampleMetrics).GoTechBookFrameworkMetricsConstTags).entries.map formatTag ∧
    (sampleStatsd).defaultTags.length = (readMap (sampleMetrics).GoTechBookFrameworkMetricsConstTags).entries.length + 1 ∧
    (sampleStatsd).rate = (sampleMetrics).GoTechBookFrameworkMetricsStatsdRate ∧
    (∃ s', (sampleStatsd).ReportCount ConnectedClients ((∅ : Tags).insert "room" "1") 3 =
        Outcome.returned s' ((∅ : Tags).insert "room" "1")
          ((sampleStatsd).client.answer (ClientCall.Count ConnectedClients (toInt64 3)
            ((sampleStatsd).defaultTags ++ (((∅ : Tags).insert "room" "1")).entries.map formatTag) (sampleStatsd).rate)) ∧
      s'.client.invoked = (sampleStatsd).client.invoked ++
        [ClientCall.Count ConnectedClients (toInt64 3)
            ((sampleStatsd).defaultTags ++ (((∅ : Tags).insert "room" "1")).entries.map formatTag) (sampleStatsd).rate] ∧
      s'.defaultTags = (sampleStatsd).defaultTags) ∧
    (∃ s', (sampleStatsd).ReportGauge ConnectedClients ((∅ : Tags).insert "room" "1") 3 =
        Outcome.returned s' ((∅ : Tags).insert "room" "1")
          ((sampleStatsd).client.answer (ClientCall.Gauge ConnectedClients 3
            ((sampleStatsd).defaultTags ++ (((∅ : Tags).insert "room" "1")).entries.map formatTag) (sampleStatsd).rate)) ∧
      s'.client.invoked = (sampleStatsd).client.invoked ++
        [ClientCall.Gauge ConnectedClients 3
            ((sampleStatsd).defaultTags ++ (((∅ : Tags).insert "room" "1")).entries.map formatTag) (sampleStatsd).rate] ∧
      s'.defaultTags = (sampleStatsd).defaultTags) ∧
    (∃ s', (sampleStatsd).ReportSummary ConnectedClients ((∅ : Tags).insert "room" "1") 3 =
        Outcome.returned s' ((∅ : Tags).insert "room" "1")
          ((sampleStatsd).client.answer (ClientCall.TimeInMilliseconds ConnectedClients 3
            ((sampleStatsd).defaultTags ++ (((∅ : Tags).insert "room" "1")).entries.map formatTag) (sampleStatsd).rate)) ∧
      s'.client.invoked = (sampleStatsd).client.invoked ++
        [ClientCall.TimeInMilliseconds ConnectedClients 3
            ((sampleStatsd).defaultTags ++ (((∅ : Tags).insert "room" "1")).entries.map formatTag) (sampleStatsd).rate] ∧
      s'.defaultTags = (sampleStatsd).defaultTags) :=
  ⟨rfl, by decide,
    statsd_report_invokes_client_once (fun _ _ => Except.error ErrNotImplemented)
      sampleMetrics "game-server" [freshClient none] sampleStatsd rfl ConnectedClients
      ((∅ : Tags).insert "room" "1") 3⟩

/-- C11 (as stated, refuted): the first call passes a nil specification and panics inside
`registerCustomMetrics`; the guard is set all the same, so the second call returns without
panic, and in the whole sequence no collector list was registered and no listener was
started. -/
theorem first_call_panic_leaves_singleton_unregistered :
    (runCalls "metrics" (fun _ => true)
      [⟨"game-server", sampleMetrics, none⟩, ⟨"game-server", sampleMetrics, some ⟨[], [], [], []⟩⟩]
      Process.start).2.map GetResult.isPanicked = [true, false] ∧
    (runCalls "metrics" (fun _ => true)
      [⟨"game-server", sampleMetrics, none⟩, ⟨"game-server", sampleMetrics, some ⟨[], [], [], []⟩⟩]
      Process.start).1.listeners = [] ∧
    (runCalls "metrics" (fun _ => true)
      [⟨"game-server", sampleMetrics, none⟩, ⟨"game-server", sampleMetrics, some ⟨[], [], [], []⟩⟩]
      Process.start).1.registered.length = 0 := by
  refine ⟨?_, ?_, ?_⟩ <;> decide

/-- Once the guard is set, `GetPrometheusReporter` returns the package variable with a nil
error and leaves the process state as it is, whatever its arguments. -/
theorem GetPrometheusReporter_of_done (PREFIX : String) (acc : List Collector → Bool)
    (serverType : String) (metrics : ConfigMetrics) (spec : Option CustomMetricsSpec)
    (st : Process) (hdone : st.onceDone = true) :
    GetPrometheusReporter PREFIX acc serverType metrics spec st =
      (st, GetResult.returned st.prometheusReporter none) := by
  simp [GetPrometheusReporter, hdone]

/-- A sequence of calls in a process whose guard is set: the state is unchanged and every
call returns the package variable with a nil error. -/
theorem runCalls_of_done (PREFIX : String) (acc : List Collector → Bool)
    (calls : List GetArgs) (st : Process) (hdone : st.onceDone = true) :
    runCalls PREFIX acc calls st =
      (st, List.replicate calls.length (GetResult.returned st.prometheusReporter none)) := by
  induction calls with
  | nil => rfl
  | cons a rest ih =>
    simp [runCalls, GetPrometheusReporter_of_done PREFIX acc _ _ _ st hdone, ih,
      List.replicate_succ]

/-- C11 (amended): in a process whose guard is not yet set, for every sequence of
`GetPrometheusReporter` calls whose first call completes (its constant-tag map and its
specification are not nil, the registry accepts its collectors and the `/metrics` pattern is
free): the first call builds the reporter from its own arguments, registers one collector
list, registers the handler and starts one listener; every call of the sequence returns that
reporter with a nil error; and the state after the whole sequence is the state after the
first call, so later calls change nothing and ignore their arguments. -/
theorem singleton_built_once_by_completed_first_call (PREFIX : String)
    (acc : List Collector → Bool) (first : GetArgs) (rest : List GetArgs) (st : Process)
    (constLabels : Tags) (sp : CustomMetricsSpec)
    (hfresh : st.onceDone = false)
    (hconst : first.metrics.GoTechBookFrameworkMetricsConstTags = some constLabels)
    (hspec : first.spec = some sp)
    (hacc : acc ((newPrometheusReporter first.serverType).registerMetrics PREFIX constLabels
      first.metrics.GoTechBookFrameworkMetricsPrometheusAdditionalTags sp).2 = true)
    (hfree : "/metrics" ∉ st.handlers) :
    runCalls PREFIX acc (first :: rest) st =
      ((Process.mk true (some ((newPrometheusReporter (first).serverType).registerMetrics PREFIX constLabels
        (first).metrics.GoTechBookFrameworkMetricsPrometheusAdditionalTags sp).1)
      ((st).registered ++ [((newPrometheusReporter (first).serverType).registerMetrics PREFIX constLabels
        (first).metrics.GoTechBookFrameworkMetricsPrometheusAdditionalTags sp).2])
      ((st).handlers ++ ["/metrics"])
      ((st).listeners ++ [(first).metrics.GoTechBookFrameworkMetricsPrometheusPort])),
       List.replicate ((rest).length + 1)
        (GetResult.returned (some ((newPrometheusReporter (first).serverType).registerMetrics PREFIX constLabels
        (first).metrics.GoTechBookFrameworkMetricsPrometheusAdditionalTags sp).1) none)) ∧
    GetPrometheusReporter PREFIX acc (first).serverType (first).metrics (first).spec st =
      ((Process.mk true (some ((newPrometheusReporter (first).serverType).registerMetrics PREFIX constLabels
        (first).metrics.GoTechBookFrameworkMetricsPrometheusAdditionalTags sp).1)
      ((st).registered ++ [((newPrometheusReporter (first).serverType).registerMetrics PREFIX constLabels
        (first).metrics.GoTechBookFrameworkMetricsPrometheusAdditionalTags sp).2])
      ((st).handlers ++ ["/metrics"])
      ((st).listeners ++ [(first).metrics.GoTechBookFrameworkMetricsPrometheusPort])),
       (GetResult.returned (some ((newPrometheusReporter (first).serverType).registerMetrics PREFIX constLabels
        (first).metrics.GoTechBookFrameworkMetricsPrometheusAdditionalTags sp).1) none)) ∧
    (∀ a : GetArgs,
      GetPrometheusReporter PREFIX acc a.serverType a.metrics a.spec
        (Process.mk true (some ((newPrometheusReporter (first).serverType).registerMetrics PREFIX constLabels
        (first).metrics.GoTechBookFrameworkMetricsPrometheusAdditionalTags sp).1)
      ((st).registered ++ [((newPrometheusReporter (first).serverType).registerMetrics PREFIX constLabels
        (first).metrics.GoTechBookFrameworkMetricsPrometheusAdditionalTags sp).2])
      ((st).handlers ++ ["/metrics"])
      ((st).listeners ++ [(first).metrics.GoTechBookFrameworkMetricsPrometheusPort])) =
      ((Process.mk true (some ((newPrometheusReporter (first).serverType).registerMetrics PREFIX constLabels
        (first).metrics.GoTechBookFrameworkMetricsPrometheusAdditionalTags sp).1)
      ((st).registered ++ [((newPrometheusReporter (first).serverType).registerMetrics PREFIX constLabels
        (first).metrics.GoTechBookFrameworkMetricsPrometheusAdditionalTags sp).2])
      ((st).handlers ++ ["/metrics"])
      ((st).listeners ++ [(first).metrics.GoTechBookFrameworkMetricsPrometheusPort])),
       (GetResult.returned (some ((newPrometheusReporter (first).serverType).registerMetrics PREFIX constLabels
        (first).metrics.GoTechBookFrameworkMetricsPrometheusAdditionalTags sp).1) none))) := by
  have hfirst : GetPrometheusReporter PREFIX acc first.serverType first.metrics first.spec st =
      (Process.mk true (some ((newPrometheusReporter first.serverType).registerMetrics PREFIX
          constLabels first.metrics.GoTechBookFrameworkMetricsPrometheusAdditionalTags sp).1)
        (st.registered ++ [((newPrometheusReporter first.serverType).registerMetrics PREFIX
          constLabels first.metrics.GoTechBookFrameworkMetricsPrometheusAdditionalTags sp).2])
        (st.handlers ++ ["/metrics"])
        (st.listeners ++ [first.metrics.GoTechBookFrameworkMetricsPrometheusPort]),
       GetResult.returned (some ((newPrometheusReporter first.serverType).registerMetrics PREFIX
          constLabels first.metrics.GoTechBookFrameworkMetricsPrometheusAdditionalTags sp).1)
          none) := by
    simp [GetPrometheusReporter, hfresh, hconst, hspec, hacc, hfree]
  refine ⟨?_, hfirst, ?_⟩
  · simp only [runCalls, hfirst]
    rw [runCalls_of_done PREFIX acc rest _ rfl]
    simp [List.replicate_succ]
  · intro a
    exact GetPrometheusReporter_of_done PREFIX acc _ _ _ _ rfl

/-- C11 witness: a first call with the sample configuration and an empty specification in a
fresh process, followed by a call with another server type and a nil specification. -/
theorem singleton_built_once_by_completed_first_call_witness :
    runCalls "metrics" (fun _ => true) ((GetArgs.mk "game-server" sampleMetrics (some ⟨[], [], [], []⟩)) :: [GetArgs.mk "chat-server" sampleMetrics none]) Process.start =
      ((Process.mk true (some ((newPrometheusReporter ((GetArgs.mk "game-server" sampleMetrics (some ⟨[], [], [], []⟩))).serverType).registerMetrics "metrics" ((∅ : Tags).insert "env" "prod")
        ((GetArgs.mk "game-server" sampleMetrics (some ⟨[], [], [], []⟩))).metrics.GoTechBookFrameworkMetricsPrometheusAdditionalTags ⟨[], [], [], []⟩).1)
      ((Process.start).registered ++ [((newPrometheusReporter ((GetArgs.mk "game-server" sampleMetrics (some ⟨[], [], [], []⟩))).serverType).registerMetrics "metrics" ((∅ : Tags).insert "env" "prod")
        ((GetArgs.mk "game-server" sampleMetrics (some ⟨[], [], [], []⟩))).metrics.GoTechBookFrameworkMetricsPrometheusAdditionalTags ⟨[], [], [], []⟩).2])
      ((Process.start).handlers ++ ["/metrics"])
      ((Process.start).listeners ++ [((GetArgs.mk "game-server" sampleMetrics (some ⟨[], [], [], []⟩))).metrics.GoTechBookFrameworkMetricsPrometheusPort])),
       List.replicate (([GetArgs.mk "chat-server" sampleMetrics none]).length + 1)
        (GetResult.returned (some ((newPrometheusReporter ((GetArgs.mk "game-server" sampleMetrics (some ⟨[], [], [], []⟩))).serverType).registerMetrics "metrics" ((∅ : Tags).insert "env" "prod")
        ((GetArgs.mk "game-server" sampleMetrics (some ⟨[], [], [], []⟩))).metrics.GoTechBookFrameworkMetricsPrometheusAdditionalTags ⟨[], [], [], []⟩).1) none)) ∧
    GetPrometheusReporter "metrics" (fun _ => true) ((GetArgs.mk "game-server" sampleMetrics (some ⟨[], [], [], []⟩))).serverType ((GetArgs.mk "game-server" sampleMetrics (some ⟨[], [], [], []⟩))).metrics ((GetArgs.mk "game-server" sampleMetrics (some ⟨[], [], [], []⟩))).spec Process.start =
      ((Process.mk true (some ((newPrometheusReporter ((GetArgs.mk "game-server" sampleMetrics (some ⟨[], [], [], []⟩))).serverType).registerMetrics "metrics" ((∅ : Tags).insert "env" "prod")
        ((GetArgs.mk "game-server" sampleMetrics (some ⟨[], [], [], []⟩))).metrics.GoTechBookFrameworkMetricsPrometheusAdditionalTags ⟨[], [], [], []⟩).1)
      ((Process.start).registered ++ [((newPrometheusReporter ((GetArgs.mk "game-server" sampleMetrics (some ⟨[], [], [], []⟩))).serverType).registerMetrics "metrics" ((∅ : Tags).insert "env" "prod")
        ((GetArgs.mk "game-server" sampleMetrics (some ⟨[], [], [], []⟩))).metrics.GoTechBookFrameworkMetricsPrometheusAdditionalTags ⟨[], [], [], []⟩).2])
      ((Process.start).handlers ++ ["/metrics"])
      ((Process.start).listeners ++ [((GetArgs.mk "game-server" sampleMetrics (some ⟨[], [], [], []⟩))).metrics.GoTechBookFrameworkMetricsPrometheusPort])),
       (GetResult.returned (some ((newPrometheusReporter ((GetArgs.mk "game-server" sampleMetrics (some ⟨[], [], [], []⟩))).serverType).registerMetrics "metrics" ((∅ : Tags).insert "env" "prod")
        ((GetArgs.mk "game-server" sampleMetrics (some ⟨[], [], [], []⟩))).metrics.GoTechBookFrameworkMetricsPrometheusAdditionalTags ⟨[], [], [], []⟩).1) none)) ∧
    (∀ a : GetArgs,
      GetPrometheusReporter "metrics" (fun _ => true) a.serverType a.metrics a.spec
        (Process.mk true (some ((newPrometheusReporter ((GetArgs.mk "game-server" sampleMetrics (some ⟨[], [], [], []⟩))).serverType).registerMetrics "metrics" ((∅ : Tags).insert "env" "prod")
        ((GetArgs.mk "game-server" sampleMetrics (some ⟨[], [], [], []⟩))).metrics.GoTechBookFrameworkMetricsPrometheusAdditionalTags ⟨[], [], [], []⟩).1)
      ((Process.start).registered ++ [((newPrometheusReporter ((GetArgs.mk "game-server" sampleMetrics (some ⟨[], [], [], []⟩))).serverType).registerMetrics "metrics" ((∅ : Tags).insert "env" "prod")
        ((GetArgs.mk "game-server" sampleMetrics (some ⟨[], [], [], []⟩))).metrics.GoTechBookFrameworkMetricsPrometheusAdditionalTags ⟨[], [], [], []⟩).2])
      ((Process.start).handlers ++ ["/metrics"])
      ((Process.start).listeners ++ [((GetArgs.mk "game-server" sampleMetrics (some ⟨[], [], [], []⟩))).metrics.GoTechBookFrameworkMetricsPrometheusPort])) =
      ((Process.mk true (some ((newPrometheusReporter ((GetArgs.mk "game-server" sampleMetrics (some ⟨[], [], [], []⟩))).serverType).registerMetrics "metrics" ((∅ : Tags).insert "env" "prod")
        ((GetArgs.mk "game-server" sampleMetrics (some ⟨[], [], [], []⟩))).metrics.GoTechBookFrameworkMetricsPrometheusAdditionalTags ⟨[], [], [], []⟩).1)
      ((Process.start).registered ++ [((newPrometheusReporter ((GetArgs.mk "game-server" sampleMetrics (some ⟨[], [], [], []⟩))).serverType).registerMetrics "metrics" ((∅ : Tags).insert "env" "prod")
        ((GetArgs.mk "game-server" sampleMetrics (some ⟨[], [], [], []⟩))).metrics.GoTechBookFrameworkMetricsPrometheusAdditionalTags ⟨[], [], [], []⟩).2])
      ((Process.start).handlers ++ ["/metrics"])
      ((Process.start).listeners ++ [((GetArgs.mk "game-server" sampleMetrics (some ⟨[], [], [], []⟩))).metrics.GoTechBookFrameworkMetricsPrometheusPort])),
       (GetResult.returned (some ((newPrometheusReporter ((GetArgs.mk "game-server" sampleMetrics (some ⟨[], [], [], []⟩))).serverType).registerMetrics "metrics" ((∅ : Tags).insert "env" "prod")
        ((GetArgs.mk "game-server" sampleMetrics (some ⟨[], [], [], []⟩))).metrics.GoTechBookFrameworkMetricsPrometheusAdditionalTags ⟨[], [], [], []⟩).1) none))) :=
  singleton_built_once_by_completed_first_call "metrics" (fun _ => true)
    (GetArgs.mk "game-server" sampleMetrics (some ⟨[], [], [], []⟩))
    [GetArgs.mk "chat-server" sampleMetrics none] Process.start
    ((∅ : Tags).insert "env" "prod") ⟨[], [], [], []⟩ rfl rfl rfl rfl (by decide)

end Metrics
